import Mathlib

/-!
The virtualservice controller of KubeSphere

A shallow embedding of `pkg/controller/virtualservice/virtualservice_controller.go`:
the spec synthesizers (`generateDefaultVirtualServiceSpec`, `generateVirtualServiceSpec`),
the patch merger (`patchHTTPRoute`), the reconciler (`syncService`) run against an explicit
object store, and the bounded-retry handler (`handleErr`) run against an explicit work queue.

Conventions of the embedding:

* Go pointers to freshly built or deep-copied objects become values.  The one place where the
  source shares an object between several owners (the governor destination) is modelled by
  threading the state of that object explicitly.
* Go maps (`map[string]string`) are association lists; a nil map and an empty map are both `[]`.
* `reflect.DeepEqual` is equality of the embedded values.
* `int32` values are `Int`, `uint32` values are `Nat`; the conversion `uint32(x)` is explicit.
-/

namespace VSController

/-! ## Data model -/

/-- A Go `map[string]string`. -/
abbrev StringMap := List (String × String)

/-- The Go conversion `uint32(x)` of an `int32` value. -/
def uint32 (x : Int) : Nat := (x % 4294967296).toNat

/-- Istio `PortSelector`. -/
structure PortSelector where
  Number : Nat
  deriving DecidableEq, Repr

/-- Istio `Destination`; `Port` is a pointer in the source, so it may be unset. -/
structure Destination where
  Host : String := ""
  Subset : String := ""
  Port : Option PortSelector := none
  deriving DecidableEq, Repr

/-- Istio `HTTPRouteDestination`.  The controller dereferences `Destination` without a nil
check, so a route destination always carries one. -/
structure HTTPRouteDestination where
  Destination : Destination := {}
  Weight : Int := 0
  deriving DecidableEq, Repr

/-- Istio `RouteDestination`, the L4 counterpart of `HTTPRouteDestination`. -/
structure RouteDestination where
  Destination : Destination := {}
  Weight : Int := 0
  deriving DecidableEq, Repr

/-- Istio `HTTPMatchRequest`.  Only `Port` is written by the controller; the other fields stand
for the conditions a template may carry. -/
structure HTTPMatchRequest where
  Name : String := ""
  Uri : Option String := none
  Method : Option String := none
  Port : Nat := 0
  deriving DecidableEq, Repr

/-- Istio `L4MatchAttributes`. -/
structure L4MatchAttributes where
  DestinationSubnets : List String := []
  Port : Nat := 0
  Gateways : List String := []
  deriving DecidableEq, Repr

/-- Istio `TLSMatchAttributes`. -/
structure TLSMatchAttributes where
  SniHosts : List String := []
  Port : Nat := 0
  deriving DecidableEq, Repr

/-- Istio `HTTPRoute`.  The controller reads and writes `Name`, `Match`, `Route` and `Mirror`;
the remaining fields are the operator-managed ones that `patchHTTPRoute` carries over. -/
structure HTTPRoute where
  Name : String := ""
  Match : List HTTPMatchRequest := []
  Route : List HTTPRouteDestination := []
  Redirect : Option String := none
  Rewrite : Option String := none
  Timeout : Option Nat := none
  Retries : Option Nat := none
  Fault : Option String := none
  Mirror : Option Destination := none
  CorsPolicy : Option String := none
  Headers : Option String := none
  deriving DecidableEq, Repr

/-- Istio `TCPRoute`. -/
structure TCPRoute where
  Match : List L4MatchAttributes := []
  Route : List RouteDestination := []
  deriving DecidableEq, Repr

/-- Istio `TLSRoute`. -/
structure TLSRoute where
  Match : List TLSMatchAttributes := []
  Route : List RouteDestination := []
  deriving DecidableEq, Repr

/-- The spec of an Istio `VirtualService` (the RoutingPolicy of the specification). -/
structure VirtualServiceSpec where
  Hosts : List String := []
  Gateways : List String := []
  Http : List HTTPRoute := []
  Tls : List TLSRoute := []
  Tcp : List TCPRoute := []
  ExportTo : List String := []
  deriving DecidableEq, Repr

/-- The part of `metav1.ObjectMeta` the controller touches. -/
structure ObjectMeta where
  Name : String := ""
  Namespace : String := ""
  Labels : StringMap := []
  Annotations : StringMap := []
  ResourceVersion : String := ""
  deriving DecidableEq, Repr

/-- Istio `VirtualService` object. -/
structure VirtualService extends ObjectMeta where
  Spec : VirtualServiceSpec := {}
  deriving DecidableEq, Repr

/-- Istio `Subset` of a DestinationRule; only the name is read. -/
structure Subset where
  Name : String := ""
  deriving DecidableEq, Repr

/-- The spec of an Istio `DestinationRule` (the SubsetDefinition of the specification). -/
structure DestinationRuleSpec where
  Host : String := ""
  Subsets : List Subset := []
  deriving DecidableEq, Repr

/-- Istio `DestinationRule` object. -/
structure DestinationRule extends ObjectMeta where
  Spec : DestinationRuleSpec := {}
  deriving DecidableEq, Repr

/-- Kubernetes `v1.Protocol`. -/
inductive Protocol where
  | TCP
  | UDP
  | SCTP
  deriving DecidableEq, Repr

/-- Kubernetes `v1.ServicePort`; `Port` is an `int32`. -/
structure ServicePort where
  Name : String := ""
  Protocol : Protocol := Protocol.TCP
  Port : Int := 0
  deriving DecidableEq, Repr

/-- Kubernetes `v1.ServiceSpec`; only the ports are read. -/
structure ServiceSpec where
  Ports : List ServicePort := []
  deriving DecidableEq, Repr

/-- Kubernetes `v1.Service` (the WorkloadRecord of the specification). -/
structure Service extends ObjectMeta where
  Spec : ServiceSpec := {}
  deriving DecidableEq, Repr

/-- The `StrategyPolicy` of a strategy: the three named constants of the API, and `Unspecified`
for every other value of the underlying string. -/
inductive StrategyPolicy where
  | PolicyPause
  | PolicyWaitForWorkloadReady
  | PolicyImmediately
  | Unspecified
  deriving DecidableEq, Repr

/-- The `VirtualServiceTemplateSpec` of a strategy. -/
structure VirtualServiceTemplateSpec where
  Spec : VirtualServiceSpec := {}
  deriving DecidableEq, Repr

/-- The `StrategySpec` fields the controller reads. -/
structure StrategySpec where
  Template : VirtualServiceTemplateSpec := {}
  StrategyPolicy : StrategyPolicy := StrategyPolicy.Unspecified
  GovernorVersion : String := ""
  deriving DecidableEq, Repr

/-- The servicemesh `Strategy` object (the RolloutStrategy of the specification). -/
structure Strategy extends ObjectMeta where
  Spec : StrategySpec := {}
  deriving DecidableEq, Repr

/-- The helpers of package `pkg/controller/utils/servicemesh` that the controller calls.  That
package is not among the sources at hand, so every helper is a parameter of the model: a result
stated for all `Servicemesh` values holds whatever these helpers compute. -/
structure Servicemesh where
  /-- The array `servicemesh.ApplicationLabels`. -/
  ApplicationLabels : List String
  /-- The constant `servicemesh.AppLabel`. -/
  AppLabel : String
  /-- Whether a label set marks an application component. -/
  IsApplicationComponent : StringMap → Bool
  /-- Whether an annotation set carries the mesh-enabled marker. -/
  IsServicemeshEnabled : StringMap → Bool
  /-- The component (app) name of an object. -/
  GetComponentName : ObjectMeta → String
  /-- The application labels of an object. -/
  ExtractApplicationLabels : ObjectMeta → StringMap
  /-- Whether a port name designates an HTTP-capable port. -/
  SupportHttpProtocol : String → Bool
  /-- The port number `FillDestinationPort` writes into a destination whose port selector is
  unset, given the service and the port numbers of the match clauses of the enclosing route. -/
  BackfillNumber : Service → List Nat → Nat


/-! ## Small library models -/

/-- Assignment `m[k] = v` on a Go map: the entry for `k` is replaced or added. -/
def mapSet {α : Type} (m : List (String × α)) (k : String) (v : α) : List (String × α) :=
  (k, v) :: m.filter (fun e => e.1 != k)

/-- Lookup `v, ok := m[k]` on a Go map. -/
def mapGet {α : Type} (m : List (String × α)) (k : String) : Option α :=
  (m.find? (fun e => e.1 == k)).map (fun e => e.2)

/-- The `sets.String` of apimachinery, as the list of its members. -/
abbrev StringSet := List String

/-- The method `sets.String.Insert`. -/
def StringSet.Insert (set : StringSet) (item : String) : StringSet :=
  if item ∈ set then set else set ++ [item]

/-- The method `sets.String.Has`. -/
def StringSet.Has (set : StringSet) (item : String) : Bool :=
  decide (item ∈ set)

/-! ## Spec synthesizer and patch merger -/

/-- The method `getSubsets`: every subset name referenced by the route template of the strategy:
the route destinations of the HTTP, TCP and TLS routes and the HTTP mirror destinations. -/
def getSubsets (strategy : Strategy) : StringSet :=
  let set : StringSet := []
  let set := strategy.Spec.Template.Spec.Http.foldl (fun set httpRoute =>
    let set := httpRoute.Route.foldl (fun set dw => StringSet.Insert set dw.Destination.Subset) set
    match httpRoute.Mirror with
    | some mirror => StringSet.Insert set mirror.Subset
    | none => set) set
  let set := strategy.Spec.Template.Spec.Tcp.foldl (fun set tcpRoute =>
    tcpRoute.Route.foldl (fun set dw => StringSet.Insert set dw.Destination.Subset) set) set
  let set := strategy.Spec.Template.Spec.Tls.foldl (fun set tlsRoute =>
    tlsRoute.Route.foldl (fun set dw => StringSet.Insert set dw.Destination.Subset) set) set
  set

/-- The write `Destination.Port = PortSelector(n)` on a destination whose port selector is
unset; a destination that has one is left alone. -/
def backfillDestination (n : Nat) (d : Destination) : Destination :=
  match d.Port with
  | some _ => d
  | none => { d with Port := some { Number := n } }

/-- Modelled from the spec: `servicemesh.FillDestinationPort` is not among the sources.  The
specification (section 4.4) says: after building either variant, backfill any destination whose
port selector was left unset with the destination's matching workload port number.  Here every
destination whose `Port` is unset, that is every route destination of every HTTP, TCP and TLS
route and the mirror destination of every HTTP route, gets the number
`BackfillNumber service ports`, where `ports` are the port numbers of the match clauses of the
route holding the destination; which number that is stays a parameter.  This is the run on a
spec whose destinations are separate objects. -/
def FillDestinationPort (sm : Servicemesh) (vs : VirtualService) (service : Service) :
    VirtualService :=
  { vs with Spec := { vs.Spec with
      Http := vs.Spec.Http.map (fun r =>
        { r with
          Route := r.Route.map (fun d =>
            let n := sm.BackfillNumber service (r.Match.map (fun m => m.Port))
            { d with Destination := backfillDestination n d.Destination })
          Mirror := r.Mirror.map (fun mirror =>
            let n := sm.BackfillNumber service (r.Match.map (fun m => m.Port))
            backfillDestination n mirror) })
      Tcp := vs.Spec.Tcp.map (fun r => { r with Route := r.Route.map (fun d =>
        let n := sm.BackfillNumber service (r.Match.map (fun m => m.Port))
        { d with Destination := backfillDestination n d.Destination }) })
      Tls := vs.Spec.Tls.map (fun r => { r with Route := r.Route.map (fun d =>
        let n := sm.BackfillNumber service (r.Match.map (fun m => m.Port))
        { d with Destination := backfillDestination n d.Destination }) }) } }

/-- The state of one destination object that all the given HTTP routes point to, after
`FillDestinationPort` has visited the routes in order: each visit writes the port only if it is
still unset at that moment. -/
def fillSharedDestination (sm : Servicemesh) (service : Service) :
    Destination → List HTTPRoute → Destination
  | cell, [] => cell
  | cell, r :: rs =>
    fillSharedDestination sm service
      (backfillDestination (sm.BackfillNumber service (r.Match.map (fun m => m.Port))) cell) rs

/-- Modelled from the spec: `servicemesh.FillDestinationPort` (see `FillDestinationPort`), run
on a spec in which every route destination of every HTTP route is a pointer to one and the same
`HTTPRouteDestination` object `shared`, as built by the governor branch of
`generateVirtualServiceSpec`.  The writes go to that one object, so after the run every HTTP
route shows its final state; the other destinations are separate objects and are backfilled as
in `FillDestinationPort`. -/
def FillDestinationPortShared (sm : Servicemesh) (vs : VirtualService) (service : Service)
    (shared : HTTPRouteDestination) : VirtualService :=
  let final : HTTPRouteDestination :=
    { shared with Destination := fillSharedDestination sm service shared.Destination vs.Spec.Http }
  let vs := FillDestinationPort sm vs service
  { vs with Spec := { vs.Spec with
      Http := vs.Spec.Http.map (fun r => { r with Route := r.Route.map (fun _ => final) }) } }

/-- The body of the loop over `strategyTempSpec.Http` in `generateVirtualServiceSpec`: fill
`match.port` and `route.destination.port` of one (deep-copied) template route. -/
def fillHTTPRoute (port : ServicePort) (http : HTTPRoute) : HTTPRoute :=
  let http : HTTPRoute :=
    if http.Match.length = 0 then
      { http with Match := [{ Port := uint32 port.Port }] }
    else
      { http with Match := http.Match.map (fun m => { m with Port := uint32 port.Port }) }
  { http with Route := http.Route.map (fun route =>
      { route with Destination :=
          { route.Destination with Port := some { Number := uint32 port.Port } } }) }

/-- The body of the loop over `strategyTempSpec.Tcp` in `generateVirtualServiceSpec`. -/
def fillTCPRoute (port : ServicePort) (tcp : TCPRoute) : TCPRoute :=
  let tcp : TCPRoute :=
    if tcp.Match.length = 0 then
      { tcp with Match := [{ Port := uint32 port.Port }] }
    else
      { tcp with Match := tcp.Match.map (fun m => { m with Port := uint32 port.Port }) }
  { tcp with Route := tcp.Route.map (fun r =>
      { r with Destination := { r.Destination with Port := some { Number := uint32 port.Port } } }) }

/-- The body of the loop over `service.Spec.Ports` in the branch of
`generateVirtualServiceSpec` without a governor version. -/
def templateForPort (sm : Servicemesh) (strategy : Strategy) (vs : VirtualService)
    (port : ServicePort) : VirtualService :=
  -- s := strategy.DeepCopy(): every port works on its own copy of the template
  let strategyTempSpec := strategy.Spec.Template.Spec
  -- fill route.destination.port and match.port filed
  let vs : VirtualService :=
    if strategyTempSpec.Http.length > 0 && sm.SupportHttpProtocol port.Name then
      { vs with Spec := { vs.Spec with
          Http := vs.Spec.Http ++ strategyTempSpec.Http.map (fillHTTPRoute port) } }
    else vs
  if strategyTempSpec.Tcp.length > 0 && !sm.SupportHttpProtocol port.Name then
    { vs with Spec := { vs.Spec with
        Tcp := vs.Spec.Tcp ++ strategyTempSpec.Tcp.map (fillTCPRoute port) } }
  else vs

/-- The body of the loop over `service.Spec.Ports` in the governor branch of
`generateVirtualServiceSpec`.  Every HTTP route built here holds a pointer to the one object
`governorDestinationWeight`. -/
def governorForPort (sm : Servicemesh) (strategy : Strategy)
    (governorDestinationWeight : HTTPRouteDestination) (vs : VirtualService)
    (port : ServicePort) : VirtualService :=
  let «match» : HTTPMatchRequest := { Port := uint32 port.Port }
  let vs : VirtualService :=
    if strategy.Spec.Template.Spec.Http.length > 0 && sm.SupportHttpProtocol port.Name then
      let governorRoute : HTTPRoute :=
        { Route := [governorDestinationWeight], Match := [«match»] }
      { vs with Spec := { vs.Spec with Http := vs.Spec.Http ++ [governorRoute] } }
    else vs
  if strategy.Spec.Template.Spec.Tcp.length > 0 && !sm.SupportHttpProtocol port.Name then
    let tcpRoute : TCPRoute :=
      { Route := [{ Destination :=
                      { Host := governorDestinationWeight.Destination.Host
                        Subset := governorDestinationWeight.Destination.Subset
                        Port := some { Number := uint32 port.Port } }
                    Weight := governorDestinationWeight.Weight }]
        Match := [{ Port := «match».Port }] }
    { vs with Spec := { vs.Spec with Tcp := vs.Spec.Tcp ++ [tcpRoute] } }
  else vs

/-- The method `generateVirtualServiceSpec`. -/
def generateVirtualServiceSpec (sm : Servicemesh) (strategy : Strategy) (service : Service) :
    VirtualService :=
  -- Define VirtualService to be created
  let vs : VirtualService := { Spec := { Hosts := strategy.Spec.Template.Spec.Hosts } }
  -- For multi-ports, apply the rules to each port matched http/tcp protocol
  if strategy.Spec.GovernorVersion.length = 0 then
    let vs := service.Spec.Ports.foldl (templateForPort sm strategy) vs
    FillDestinationPort sm vs service
  else
    -- one version rules them all
    let governorDestinationWeight : HTTPRouteDestination :=
      { Destination := { Host := service.Name, Subset := strategy.Spec.GovernorVersion }
        Weight := 100 }
    let vs := service.Spec.Ports.foldl (governorForPort sm strategy governorDestinationWeight) vs
    FillDestinationPortShared sm vs service governorDestinationWeight

/-- The body of the loop over `service.Spec.Ports` in `generateDefaultVirtualServiceSpec`.  The
result is `none` when `subsets[0]` is evaluated on an empty subset list, which aborts the run. -/
def defaultForPort (sm : Servicemesh) (name : String) (subsets : List Subset)
    (vs : VirtualService) (port : ServicePort) : Option VirtualService :=
  if port.Protocol = Protocol.TCP then
    match subsets.head? with
    | none => none
    | some subset0 =>
      let route : HTTPRouteDestination :=
        { Destination :=
            { Host := name, Subset := subset0.Name, Port := some { Number := uint32 port.Port } }
          Weight := 100 }
      let «match» : HTTPMatchRequest := { Port := uint32 port.Port }
      if sm.SupportHttpProtocol port.Name then
        -- a http port, add to HTTPRoute
        let httpRoute : HTTPRoute := { Name := port.Name, Route := [route], Match := [«match»] }
        some { vs with Spec := { vs.Spec with Http := vs.Spec.Http ++ [httpRoute] } }
      else
        -- everything else treated as TCPRoute
        let tcpRoute : TCPRoute :=
          { Route := [{ Destination := route.Destination, Weight := route.Weight }]
            Match := [{ Port := «match».Port }] }
        some { vs with Spec := { vs.Spec with Tcp := vs.Spec.Tcp ++ [tcpRoute] } }
  else some vs

/-- The method `generateDefaultVirtualServiceSpec`: create a whole new virtualservice.  The
result is `none` when the run aborts (see `defaultForPort`). -/
def generateDefaultVirtualServiceSpec (sm : Servicemesh) (name : String) (subsets : List Subset)
    (service : Service) : Option VirtualService :=
  let vs : VirtualService := { Spec := { Hosts := [name] } }
  service.Spec.Ports.foldlM (defaultForPort sm name subsets) vs

/-- The method `patchHTTPRoute`: copy all properties from origin to the target HTTPRoute except
Match and Route.  The source overwrites the target objects in place and returns the target
slice; here the overwritten routes are the result. -/
def patchHTTPRoute (origin target : List HTTPRoute) : List HTTPRoute :=
  let originMap : List (String × HTTPRoute) :=
    origin.foldl (fun originMap o => mapSet originMap o.Name o) []
  target.map (fun t =>
    match mapGet originMap t.Name with
    | some o => { o with Match := t.Match, Route := t.Route }
    | none => t)

/-! ## The object store and the API calls -/

/-- The errors of the API machinery, as far as the controller tells them apart. -/
inductive Error where
  | NotFound (msg : String)
  | Other (msg : String)
  deriving DecidableEq, Repr

/-- The test `errors.IsNotFound`. -/
def IsNotFound : Error → Bool
  | Error.NotFound _ => true
  | Error.Other _ => false

/-- The declarative store: the objects of the four kinds.  The listers (informer caches) and
the clients read and write this one state. -/
structure Store where
  Services : List Service := []
  DestinationRules : List DestinationRule := []
  Strategies : List Strategy := []
  VirtualServices : List VirtualService := []
  deriving DecidableEq, Repr

/-- Failures of the individual API calls that do not depend on the store content (transport,
authorization, ...): `some msg` makes the call fail with an error other than not-found and
leaves the store as it is. -/
structure Faults where
  GetService : Option String := none
  GetDestinationRule : Option String := none
  ListStrategies : Option String := none
  GetVirtualService : Option String := none
  DeleteVirtualService : Option String := none
  DeleteStrategy : Option String := none
  CreateVirtualService : Option String := none
  UpdateVirtualService : Option String := none
  deriving DecidableEq, Repr

/-- The write requests the controller sends to the API server. -/
inductive Call where
  | DeleteVirtualService (ns name : String)
  | DeleteStrategy (ns name : String)
  | CreateVirtualService (ns : String) (vs : VirtualService)
  | UpdateVirtualService (ns : String) (vs : VirtualService)
  deriving DecidableEq, Repr

/-- How a run of `syncService` ends: it returns (an error or nil), or it aborts with a Go
runtime panic. -/
inductive Outcome where
  | Returned (err : Option Error)
  | Panicked (msg : String)
  deriving DecidableEq, Repr

/-- The observable result of a run of `syncService`: how it ended, the store afterwards, the
write requests it sent (in order, whether they succeeded or not) and the reasons of the events
it recorded. -/
structure Run where
  outcome : Outcome
  store : Store
  calls : List Call := []
  events : List String := []
  deriving DecidableEq, Repr

/-- Split a character list at every occurrence of the separator, as `strings.Split` does. -/
def splitAt (sep : Char) : List Char → List (List Char)
  | [] => [[]]
  | c :: cs =>
    if c = sep then [] :: splitAt sep cs
    else
      match splitAt sep cs with
      | [] => [[c]]
      | part :: parts => (c :: part) :: parts

/-- The function `cache.SplitMetaNamespaceKey` of client-go: a key is `name` or
`namespace/name`. -/
def SplitMetaNamespaceKey (key : String) : Except Error (String × String) :=
  match splitAt '/' key.data with
  | [name] => Except.ok ("", String.mk name)
  | [ns, name] => Except.ok (String.mk ns, String.mk name)
  | _ => Except.error (Error.Other ("unexpected key format: " ++ key))

/-- The call `serviceLister.Services(namespace).Get(name)`. -/
def getService (faults : Faults) (store : Store) (ns name : String) : Except Error Service :=
  match faults.GetService with
  | some msg => Except.error (Error.Other msg)
  | none =>
    match store.Services.find? (fun o => o.Namespace == ns && o.Name == name) with
    | some o => Except.ok o
    | none => Except.error (Error.NotFound ("service " ++ name ++ " not found"))

/-- The call `destinationRuleLister.DestinationRules(namespace).Get(name)`. -/
def getDestinationRule (faults : Faults) (store : Store) (ns name : String) :
    Except Error DestinationRule :=
  match faults.GetDestinationRule with
  | some msg => Except.error (Error.Other msg)
  | none =>
    match store.DestinationRules.find? (fun o => o.Namespace == ns && o.Name == name) with
    | some o => Except.ok o
    | none => Except.error (Error.NotFound ("destinationrule " ++ name ++ " not found"))

/-- The call `strategyLister.Strategies(namespace).List(selector)` with the selector
`labels.SelectorFromSet(AppLabel: appName)`: the strategies of the namespace whose label
`AppLabel` has the value `appName`. -/
def listStrategies (sm : Servicemesh) (faults : Faults) (store : Store) (ns appName : String) :
    Except Error (List Strategy) :=
  match faults.ListStrategies with
  | some msg => Except.error (Error.Other msg)
  | none =>
    Except.ok (store.Strategies.filter (fun o =>
      o.Namespace == ns && mapGet o.Labels sm.AppLabel == some appName))

/-- The call `virtualServiceLister.VirtualServices(namespace).Get(name)`. -/
def getVirtualService (faults : Faults) (store : Store) (ns name : String) :
    Except Error VirtualService :=
  match faults.GetVirtualService with
  | some msg => Except.error (Error.Other msg)
  | none =>
    match store.VirtualServices.find? (fun o => o.Namespace == ns && o.Name == name) with
    | some o => Except.ok o
    | none => Except.error (Error.NotFound ("virtualservice " ++ name ++ " not found"))

/-- The call `VirtualServices(namespace).Delete(name)`: not-found when there is no such object. -/
def clientDeleteVirtualService (faults : Faults) (store : Store) (ns name : String) :
    Option Error × Store :=
  match faults.DeleteVirtualService with
  | some msg => (some (Error.Other msg), store)
  | none =>
    if store.VirtualServices.any (fun o => o.Namespace == ns && o.Name == name) then
      (none, { store with VirtualServices :=
        store.VirtualServices.filter (fun o => !(o.Namespace == ns && o.Name == name)) })
    else (some (Error.NotFound ("virtualservice " ++ name ++ " not found")), store)

/-- The call `Strategies(namespace).Delete(name)`: not-found when there is no such object. -/
def clientDeleteStrategy (faults : Faults) (store : Store) (ns name : String) : Option Error × Store :=
  match faults.DeleteStrategy with
  | some msg => (some (Error.Other msg), store)
  | none =>
    if store.Strategies.any (fun o => o.Namespace == ns && o.Name == name) then
      (none, { store with Strategies :=
        store.Strategies.filter (fun o => !(o.Namespace == ns && o.Name == name)) })
    else (some (Error.NotFound ("strategy " ++ name ++ " not found")), store)

/-- The call `VirtualServices(namespace).Create(vs)`: refused when the object exists already;
the server gives the stored object a resource version (only its being non-empty is ever
inspected). -/
def clientCreateVirtualService (faults : Faults) (store : Store) (ns : String) (vs : VirtualService) :
    Option Error × Store :=
  match faults.CreateVirtualService with
  | some msg => (some (Error.Other msg), store)
  | none =>
    if store.VirtualServices.any (fun o => o.Namespace == ns && o.Name == vs.Name) then
      (some (Error.Other ("virtualservice " ++ vs.Name ++ " already exists")), store)
    else
      (none, { store with VirtualServices :=
        store.VirtualServices ++ [{ vs with Namespace := ns, ResourceVersion := "1" }] })

/-- The call `VirtualServices(namespace).Update(vs)`: not-found when there is no such object,
else the stored object is replaced. -/
def clientUpdateVirtualService (faults : Faults) (store : Store) (ns : String) (vs : VirtualService) :
    Option Error × Store :=
  match faults.UpdateVirtualService with
  | some msg => (some (Error.Other msg), store)
  | none =>
    if store.VirtualServices.any (fun o => o.Namespace == ns && o.Name == vs.Name) then
      (none, { store with VirtualServices :=
        store.VirtualServices.map (fun o =>
          if o.Namespace == ns && o.Name == vs.Name then vs else o) })
    else (some (Error.NotFound ("virtualservice " ++ vs.Name ++ " not found")), store)

/-! ## The reconciler -/

/-- Lines 239-257 of `syncService`, the branch taken when the service is not found: delete the
virtualservice and the strategy of the name `name`.  In this branch the variable `service` is
nil; the two error branches evaluate `service.Name` for their log line, which aborts the run. -/
def syncDeleted (faults : Faults) (store : Store) (ns name : String) : Run :=
  -- Delete the corresponding virtualservice, as the service has been deleted.
  match clientDeleteVirtualService faults store ns name with
  | (err, store) =>
    let calls := [Call.DeleteVirtualService ns name]
    if err.isSome && !(err.any IsNotFound) then
      { outcome := Outcome.Panicked "nil pointer dereference: service.Name"
        store := store, calls := calls }
    else
      -- delete the orphan strategy if there is any
      match clientDeleteStrategy faults store ns name with
      | (err, store) =>
        let calls := calls ++ [Call.DeleteStrategy ns name]
        if err.isSome && !(err.any IsNotFound) then
          { outcome := Outcome.Panicked "nil pointer dereference: service.Name"
            store := store, calls := calls }
        else
          { outcome := Outcome.Returned none, store := store, calls := calls }

/-- Lines 322-356 of `syncService`: the spec assigned to `vs.Spec`, chosen by the number of
strategies and the policy of the first one.  The result is `none` when the run aborts inside
`generateDefaultVirtualServiceSpec`. -/
def desiredSpec (sm : Servicemesh) (name : String) (subsets : List Subset) (service : Service)
    (strategies : List Strategy) : Option VirtualServiceSpec :=
  match strategies with
  | strategy0 :: _ =>
    -- apply strategy spec to virtualservice
    match strategy0.Spec.StrategyPolicy with
    | StrategyPolicy.PolicyPause =>
      (generateDefaultVirtualServiceSpec sm name subsets service).map (fun vs => vs.Spec)
    | StrategyPolicy.PolicyWaitForWorkloadReady =>
      let set := getSubsets strategy0
      let setNames : StringSet :=
        subsets.foldl (fun setNames subset => StringSet.Insert setNames subset.Name) []
      let nonExist :=
        set.foldl (fun nonExist k => if !StringSet.Has setNames k then true else nonExist) false
      -- strategy has subset that are not ready
      if nonExist then
        (generateDefaultVirtualServiceSpec sm name subsets service).map (fun vs => vs.Spec)
      else
        some (generateVirtualServiceSpec sm strategy0 service).Spec
    | StrategyPolicy.PolicyImmediately =>
      some (generateVirtualServiceSpec sm strategy0 service).Spec
    | StrategyPolicy.Unspecified =>
      some (generateVirtualServiceSpec sm strategy0 service).Spec
  | [] =>
    (generateDefaultVirtualServiceSpec sm name subsets service).map (fun vs => vs.Spec)

/-- Lines 358-398 of `syncService`: patch the desired HTTP routes with the persisted ones, skip
the write when nothing differs, refuse a spec without routes, else create or update. -/
def applySpec (faults : Faults) (store : Store) (ns name : String) (service : Service)
    (currentVirtualService : VirtualService) (spec : VirtualServiceSpec) : Run :=
  -- vs := currentVirtualService.DeepCopy(); vs.Spec = spec
  let vs : VirtualService := { currentVirtualService with Spec := spec }
  let vs : VirtualService :=
    { vs with Spec := { vs.Spec with
        Http := patchHTTPRoute currentVirtualService.Spec.Http vs.Spec.Http } }
  let createVirtualService : Bool := currentVirtualService.ResourceVersion.length == 0
  if !createVirtualService &&
      decide (vs.Spec = currentVirtualService.Spec) &&
      decide (service.Labels = currentVirtualService.Labels) then
    -- virtual service are equal, skipping update
    { outcome := Outcome.Returned none, store := store }
  else
    -- a nil Annotations map is replaced by an empty one: both are the empty list here
    let newVirtualService : VirtualService :=
      { currentVirtualService with Labels := service.Labels, Spec := vs.Spec }
    if newVirtualService.Spec.Http.length == 0 && newVirtualService.Spec.Tcp.length == 0 &&
        newVirtualService.Spec.Tls.length == 0 then
      { outcome := Outcome.Returned (some (Error.Other
          ("service " ++ ns ++ "/" ++ name ++ " doesn't have a valid port spec")))
        store := store }
    else if createVirtualService then
      match clientCreateVirtualService faults store ns newVirtualService with
      | (some err, store) =>
        { outcome := Outcome.Returned (some err), store := store
          calls := [Call.CreateVirtualService ns newVirtualService]
          events := ["FailedToCreateVirtualService"] }
      | (none, store) =>
        { outcome := Outcome.Returned none, store := store
          calls := [Call.CreateVirtualService ns newVirtualService] }
    else
      match clientUpdateVirtualService faults store ns newVirtualService with
      | (some err, store) =>
        { outcome := Outcome.Returned (some err), store := store
          calls := [Call.UpdateVirtualService ns newVirtualService]
          events := ["FailedToUpdateVirtualService"] }
      | (none, store) =>
        { outcome := Outcome.Returned none, store := store
          calls := [Call.UpdateVirtualService ns newVirtualService] }

/-- The condition of lines 262-265 of `syncService` under which the run returns at once:
services don't have enough labels to create a virtualservice, or they don't have necessary
labels, or they don't have any ports defined. -/
def lacksRequirements (sm : Servicemesh) (service : Service) : Bool :=
  service.Labels.length < sm.ApplicationLabels.length ||
    !sm.IsApplicationComponent service.Labels ||
    !sm.IsServicemeshEnabled service.Annotations ||
    service.Spec.Ports.length == 0

/-- Lines 304-319 of `syncService`: get the current virtual service; when there is none, an
object without resource version that carries the name `appName`, the namespace and the
application labels of the service takes its place. -/
def currentVirtualService (sm : Servicemesh) (faults : Faults) (store : Store)
    (ns appName : String) (service : Service) : Except Error VirtualService :=
  match getVirtualService faults store ns appName with
  | Except.ok vs => Except.ok vs
  | Except.error err =>
    if IsNotFound err then
      Except.ok
        { Name := appName, Namespace := ns
          Labels := sm.ExtractApplicationLabels service.toObjectMeta }
    else Except.error err

/-- The method `syncService`, the main part of the reconcile function body: it takes service,
destinationrule, strategy as input to create a virtualservice for service. -/
def syncService (sm : Servicemesh) (faults : Faults) (store : Store) (key : String) : Run :=
  match SplitMetaNamespaceKey key with
  | Except.error err => { outcome := Outcome.Returned (some err), store := store }
  | Except.ok (ns, name) =>
    match getService faults store ns name with
    | Except.error err =>
      if IsNotFound err then syncDeleted faults store ns name
      else { outcome := Outcome.Returned (some err), store := store }
    | Except.ok service =>
      if lacksRequirements sm service then
        { outcome := Outcome.Returned none, store := store }
      else
        -- get real component name, i.e label app value
        let appName := sm.GetComponentName service.toObjectMeta
        match getDestinationRule faults store ns name with
        | Except.error err =>
          if IsNotFound err then
            -- there is no destinationrule for this service
            { outcome := Outcome.Returned (some (Error.Other
                ("destination rule for service " ++ ns ++ "/" ++ name ++ " not found")))
              store := store }
          else { outcome := Outcome.Returned (some err), store := store }
        | Except.ok destinationRule =>
          let subsets := destinationRule.Spec.Subsets
          if subsets.length == 0 then
            -- destination rule with no subsets, not possibly
            { outcome := Outcome.Returned none, store := store }
          else
            -- fetch all strategies applied to service
            match listStrategies sm faults store ns appName with
            | Except.error err => { outcome := Outcome.Returned (some err), store := store }
            | Except.ok strategies =>
              if strategies.length > 1 then
                -- more than one strategies are not allowed, it will cause collision
                { outcome := Outcome.Returned (some (Error.Other
                    ("more than one strategies applied to service " ++ ns ++ "/" ++ appName ++
                      " is forbbiden")))
                  store := store }
              else
                -- get current virtual service
                match currentVirtualService sm faults store ns appName service with
                | Except.error err => { outcome := Outcome.Returned (some err), store := store }
                | Except.ok currentVirtualService =>
                  match desiredSpec sm name subsets service strategies with
                  | none =>
                    { outcome := Outcome.Panicked "index out of range", store := store }
                  | some spec =>
                    applySpec faults store ns name service currentVirtualService spec

/-! ## The bounded-retry handler -/

/-- The constant `maxRetries`: the number of times a service will be retried before it is
dropped out of the queue. -/
def maxRetries : Nat := 15

/-- The rate-limiting work queue of client-go, as far as `handleErr` uses it: the number of
requeues the rate limiter has counted per key, and the keys handed to `AddRateLimited`. -/
structure WorkQueue where
  failures : String → Nat := fun _ => 0
  requeued : List String := []

/-- The method `NumRequeues` of the queue. -/
def WorkQueue.NumRequeues (q : WorkQueue) (key : String) : Nat := q.failures key

/-- The method `Forget` of the queue: the rate limiter stops tracking the key. -/
def WorkQueue.Forget (q : WorkQueue) (key : String) : WorkQueue :=
  { q with failures := fun k => if k = key then 0 else q.failures k }

/-- The method `AddRateLimited` of the queue: the rate limiter counts one more requeue of the
key and the key is added again after the delay. -/
def WorkQueue.AddRateLimited (q : WorkQueue) (key : String) : WorkQueue :=
  { failures := fun k => if k = key then q.failures k + 1 else q.failures k
    requeued := q.requeued ++ [key] }

/-- The state `handleErr` acts on: the queue of the controller and the errors passed to
`utilruntime.HandleError`. -/
structure Worker where
  queue : WorkQueue := {}
  reported : List Error := []

/-- The method `handleErr`. -/
def handleErr (err : Option Error) (key : String) (v : Worker) : Worker :=
  match err with
  | none => { v with queue := v.queue.Forget key }
  | some err =>
    if v.queue.NumRequeues key < maxRetries then
      { v with queue := v.queue.AddRateLimited key }
    else
      -- Dropping service out of the queue.
      { queue := v.queue.Forget key, reported := v.reported ++ [err] }

/-- The worker state after `n` consecutive runs of `syncService` on `key` that all failed with
`err`, each followed by `handleErr` (as in `processNextWorkItem`). -/
def failedAttempts (err : Error) (key : String) : Nat → Worker → Worker
  | 0, v => v
  | n + 1, v => handleErr (some err) key (failedAttempts err key n v)

/-! ## Sample data

Concrete values on which the definitions above are evaluated. -/

/-- A sample of the helpers of package servicemesh, for evaluations on concrete inputs: the
three application labels, the mesh-enabled annotation, the port names `http`, `http2` and `grpc`
as the HTTP-capable ones, and the port of the first match clause as the backfill number. -/
def sampleMesh : Servicemesh where
  ApplicationLabels := ["app.kubernetes.io/name", "app.kubernetes.io/version", "app"]
  AppLabel := "app"
  IsApplicationComponent := fun lbs =>
    ["app.kubernetes.io/name", "app.kubernetes.io/version", "app"].all
      (fun l => (mapGet lbs l).isSome)
  IsServicemeshEnabled := fun annotations =>
    mapGet annotations "servicemesh.kubesphere.io/enabled" == some "true"
  GetComponentName := fun m => (mapGet m.Labels "app").getD ""
  ExtractApplicationLabels := fun m =>
    m.Labels.filter (fun e =>
      e.1 == "app.kubernetes.io/name" || e.1 == "app.kubernetes.io/version" || e.1 == "app")
  SupportHttpProtocol := fun name => name == "http" || name == "http2" || name == "grpc"
  BackfillNumber := fun _ ports => ports.headD 0

/-- The labels of the sample workload `reviews` of the application `bookinfo`. -/
def sampleLabels : StringMap :=
  [("app.kubernetes.io/name", "bookinfo"), ("app.kubernetes.io/version", "v1"),
   ("app", "reviews")]

/-- A qualifying workload `default/reviews` with the given ports. -/
def sampleService (ports : List ServicePort) : Service :=
  { Name := "reviews", Namespace := "default", Labels := sampleLabels
    Annotations := [("servicemesh.kubesphere.io/enabled", "true")]
    Spec := { Ports := ports } }

/-- The ports `http:8080` and `grpc-tcp:9090`, both of protocol TCP. -/
def samplePorts : List ServicePort :=
  [{ Name := "http", Port := 8080 }, { Name := "grpc-tcp", Port := 9090 }]

/-- The SubsetDefinition of `default/reviews` with the given subset names. -/
def sampleDestinationRule (names : List String) : DestinationRule :=
  { Name := "reviews", Namespace := "default"
    Spec := { Host := "reviews", Subsets := names.map (fun n => { Name := n }) } }

/-- A strategy for the workload `reviews` with the given policy, pinned subset and template. -/
def sampleStrategy (policy : StrategyPolicy) (governor : String) (template : VirtualServiceSpec) :
    Strategy :=
  { Name := "reviews", Namespace := "default", Labels := sampleLabels
    Spec := { Template := { Spec := template }, StrategyPolicy := policy
              GovernorVersion := governor } }

/-- A route template with two unnamed HTTP routes (so they share the route name `""`): a route
for `/api` with a timeout, and a catch-all route without one. -/
def twoRouteTemplate : VirtualServiceSpec :=
  { Hosts := ["reviews"]
    Http := [{ Match := [{ Uri := some "/api" }], Timeout := some 5
               Route := [{ Destination := { Host := "reviews", Subset := "v1" }, Weight := 100 }] },
             { Route := [{ Destination := { Host := "reviews", Subset := "v1" }, Weight := 100 }] }]
    Tcp := [{ Route := [{ Destination := { Host := "reviews", Subset := "v1" }, Weight := 100 }] }] }

/-- A store with the workload `default/reviews` (one port `http:8080`), its SubsetDefinition
with the subset `v1`, one strategy of policy Immediately with the template `twoRouteTemplate`,
and no RoutingPolicy yet. -/
def twoRouteStore : Store :=
  { Services := [sampleService [{ Name := "http", Port := 8080 }]]
    DestinationRules := [sampleDestinationRule ["v1"]]
    Strategies := [sampleStrategy StrategyPolicy.PolicyImmediately "" twoRouteTemplate] }

/-- The RoutingPolicy the second run of `syncService` on `twoRouteStore` sends in its update:
the timeout of the `/api` route, present in the template and in the object created by the first
run, is gone. -/
def twoRouteSecondWrite : VirtualService :=
  { Name := "reviews", Namespace := "default", Labels := sampleLabels, ResourceVersion := "1"
    Spec :=
      { Hosts := ["reviews"]
        Http := [{ Match := [{ Uri := some "/api", Port := 8080 }]
                   Route := [{ Destination := { Host := "reviews", Subset := "v1"
                                                Port := some { Number := 8080 } }
                               Weight := 100 }] },
                 { Match := [{ Port := 8080 }]
                   Route := [{ Destination := { Host := "reviews", Subset := "v1"
                                                Port := some { Number := 8080 } }
                               Weight := 100 }] }] } }

/-- A workload `default/reviews` whose only port is the UDP port `dns:53`. -/
def udpService : Service :=
  sampleService [{ Name := "dns", Protocol := Protocol.UDP, Port := 53 }]

/-- A store in which the workload `default/reviews` has only a UDP port, there is no strategy,
and a RoutingPolicy without any route exists already, with the labels of the workload. -/
def emptyPolicyStore : Store :=
  { Services := [udpService]
    DestinationRules := [sampleDestinationRule ["v1"]]
    VirtualServices := [{ Name := "reviews", Namespace := "default", Labels := sampleLabels
                          ResourceVersion := "7", Spec := { Hosts := ["reviews"] } }] }

/-- A store in which the workload `default/reviews` has only a UDP port and there is neither a
strategy nor a RoutingPolicy. -/
def udpStore : Store :=
  { Services := [udpService], DestinationRules := [sampleDestinationRule ["v1"]] }

/-- A store in which two strategies select the workload `default/reviews`. -/
def conflictStore : Store :=
  { Services := [sampleService samplePorts]
    DestinationRules := [sampleDestinationRule ["v1"]]
    Strategies := [sampleStrategy StrategyPolicy.PolicyImmediately "" twoRouteTemplate,
                   { sampleStrategy StrategyPolicy.PolicyPause "" {} with Name := "reviews-2" }] }

/-- A store without the workload `default/reviews` in which its RoutingPolicy and its strategy
are left over, next to a RoutingPolicy of another workload. -/
def orphanStore : Store :=
  { Strategies := [sampleStrategy StrategyPolicy.PolicyImmediately "" twoRouteTemplate]
    VirtualServices := [{ Name := "reviews", Namespace := "default", ResourceVersion := "3"
                          Spec := { Hosts := ["reviews"] } },
                        { Name := "ratings", Namespace := "default", ResourceVersion := "4"
                          Spec := { Hosts := ["ratings"] } }] }

/-- A route template whose only route sends the traffic to the subset `v2`. -/
def v2Template : VirtualServiceSpec :=
  { Hosts := ["reviews"]
    Http := [{ Route := [{ Destination := { Host := "reviews", Subset := "v2" }
                           Weight := 100 }] }] }

/-- A qualifying workload `default/reviews-svc` whose label `app` is `reviews`: the name of the
workload and its component name differ. -/
def renamedService : Service :=
  { sampleService [{ Name := "http", Port := 8080 }] with Name := "reviews-svc" }

/-- A store with the workload `default/reviews-svc` and its SubsetDefinition of the same name,
without strategy or RoutingPolicy. -/
def renamedStore : Store :=
  { Services := [renamedService]
    DestinationRules := [{ sampleDestinationRule ["v1"] with Name := "reviews-svc" }] }

/-- The RoutingPolicy that the run on `renamedStore` asks the API server to create: it carries
the name `reviews`, the value of the label `app`, not the name of the workload. -/
def renamedPolicy : VirtualService :=
  { Name := "reviews", Namespace := "default", Labels := sampleLabels
    Spec :=
      { Hosts := ["reviews-svc"]
        Http := [{ Name := "http", Match := [{ Port := 8080 }]
                   Route := [{ Destination := { Host := "reviews-svc", Subset := "v1"
                                                Port := some { Number := 8080 } }
                               Weight := 100 }] }] } }

/-- A workload `default/reviews` with the required labels and the mesh-enabled marker but
without ports. -/
def portlessService : Service := sampleService []

/-- A store in which the workload `default/reviews` has no port while a RoutingPolicy and a
strategy of its name exist. -/
def portlessStore : Store :=
  { Services := [portlessService]
    DestinationRules := [sampleDestinationRule ["v1"]]
    Strategies := [sampleStrategy StrategyPolicy.PolicyImmediately "" twoRouteTemplate]
    VirtualServices := [{ Name := "reviews", Namespace := "default", Labels := sampleLabels
                          ResourceVersion := "3", Spec := { Hosts := ["reviews"] } }] }

/-- A store with the qualifying workload `default/reviews` and a strategy for it, but without
its SubsetDefinition. -/
def noSubsetsStore : Store :=
  { Services := [sampleService samplePorts]
    Strategies := [sampleStrategy StrategyPolicy.PolicyImmediately "" twoRouteTemplate] }

/-- The ports `http:8080` and `http2:8081`, both HTTP-capable for `sampleMesh`. -/
def twoHttpPorts : List ServicePort :=
  [{ Name := "http", Port := 8080 }, { Name := "http2", Port := 8081 }]

/-- The API failures in which the server refuses to delete a virtualservice. -/
def deleteRefused : Faults := { DeleteVirtualService := some "connection refused" }

/-- A route template with one HTTP route to the subset `v1` and one TLS route to the subset
`v3`. -/
def tlsTemplate : VirtualServiceSpec :=
  { Hosts := ["reviews"]
    Http := [{ Route := [{ Destination := { Host := "reviews", Subset := "v1" }
                           Weight := 100 }] }]
    Tls := [{ Match := [{ SniHosts := ["reviews.example.com"], Port := 443 }]
              Route := [{ Destination := { Host := "reviews", Subset := "v3" }
                          Weight := 100 }] }] }

/-- A workload `default/reviews` with the required labels and ports but without the
mesh-enabled marker. -/
def unmarkedService : Service := { sampleService samplePorts with Annotations := [] }

/-- A store in which the workload `default/reviews` lacks the mesh-enabled marker while a
RoutingPolicy of its name exists. -/
def unmarkedStore : Store :=
  { Services := [unmarkedService]
    DestinationRules := [sampleDestinationRule ["v1"]]
    VirtualServices := [{ Name := "reviews", Namespace := "default", Labels := sampleLabels
                          ResourceVersion := "3", Spec := { Hosts := ["reviews"] } }] }

/-- A store with the qualifying workload `default/reviews` whose SubsetDefinition exists but
lists no subset. -/
def emptySubsetsStore : Store :=
  { Services := [sampleService samplePorts]
    DestinationRules := [sampleDestinationRule []]
    Strategies := [sampleStrategy StrategyPolicy.PolicyImmediately "" twoRouteTemplate] }

/-- A route template whose only HTTP route has a mirror destination, the subset `v2`, without a
port selector. -/
def mirrorTemplate : VirtualServiceSpec :=
  { Hosts := ["reviews"]
    Http := [{ Route := [{ Destination := { Host := "reviews", Subset := "v1" }
                           Weight := 100 }]
               Mirror := some { Host := "reviews", Subset := "v2" } }] }

/-- A strategy named `canary-1` that is bound to the workload `reviews` by its label `app`. -/
def boundStrategy : Strategy :=
  { sampleStrategy StrategyPolicy.PolicyImmediately "" twoRouteTemplate with Name := "canary-1" }

/-- A store with the workload `default/reviews` (one port `http:8080`), its SubsetDefinition and
the strategy `canary-1`; no RoutingPolicy has been written yet. -/
def boundStore : Store :=
  { Services := [sampleService [{ Name := "http", Port := 8080 }]]
    DestinationRules := [sampleDestinationRule ["v1"]]
    Strategies := [boundStrategy] }

/-! ## Auxiliary facts -/

theorem string_length_eq_zero (s : String) : s.length = 0 ↔ s = "" := by
  cases s with
  | mk data =>
    cases data with
    | nil => simp [String.length]
    | cons c cs =>
      simp [String.length]
      intro h
      have := congrArg String.data h
      simp at this

theorem backfillDestination_of_some (n : Nat) (d : Destination) (p : PortSelector)
    (h : d.Port = some p) : backfillDestination n d = d := by
  simp [backfillDestination, h]

theorem backfillDestination_host (n : Nat) (d : Destination) :
    (backfillDestination n d).Host = d.Host ∧ (backfillDestination n d).Subset = d.Subset := by
  unfold backfillDestination
  cases d.Port <;> simp

theorem fillSharedDestination_host (sm : Servicemesh) (service : Service) (rs : List HTTPRoute)
    (cell : Destination) :
    (fillSharedDestination sm service cell rs).Host = cell.Host ∧
      (fillSharedDestination sm service cell rs).Subset = cell.Subset := by
  induction rs generalizing cell with
  | nil => simp [fillSharedDestination]
  | cons r rs ih =>
    simp only [fillSharedDestination]
    rw [(ih _).1, (ih _).2]
    exact backfillDestination_host _ _

/-- On a spec in which every route destination has its port selector set, the backfill changes
nothing but the mirror destinations of the HTTP routes. -/
theorem FillDestinationPort_of_ports_set (sm : Servicemesh) (vs : VirtualService)
    (service : Service)
    (hh : ∀ r ∈ vs.Spec.Http, ∀ d ∈ r.Route, d.Destination.Port.isSome = true)
    (ht : ∀ r ∈ vs.Spec.Tcp, ∀ d ∈ r.Route, d.Destination.Port.isSome = true)
    (hl : ∀ r ∈ vs.Spec.Tls, ∀ d ∈ r.Route, d.Destination.Port.isSome = true) :
    FillDestinationPort sm vs service =
      { vs with Spec := { vs.Spec with
        Http := vs.Spec.Http.map (fun r =>
          { r with Mirror := r.Mirror.map (backfillDestination
              (sm.BackfillNumber service (r.Match.map (fun m => m.Port)))) }) } } := by
  have key : ∀ (n : Nat) (d : Destination), d.Port.isSome = true →
      backfillDestination n d = d := by
    intro n d hd
    obtain ⟨p, hp⟩ := Option.isSome_iff_exists.mp hd
    exact backfillDestination_of_some n d p hp
  have h1 : vs.Spec.Http.map (fun (r : HTTPRoute) =>
        ({ r with
          Route := r.Route.map (fun (d : HTTPRouteDestination) =>
            let n := sm.BackfillNumber service (r.Match.map (fun (m : HTTPMatchRequest) => m.Port))
            { d with Destination := backfillDestination n d.Destination })
          Mirror := r.Mirror.map (fun (mirror : Destination) =>
            let n := sm.BackfillNumber service (r.Match.map (fun (m : HTTPMatchRequest) => m.Port))
            backfillDestination n mirror) } : HTTPRoute)) =
      vs.Spec.Http.map (fun (r : HTTPRoute) =>
        ({ r with Mirror := r.Mirror.map (backfillDestination
            (sm.BackfillNumber service
              (r.Match.map (fun (m : HTTPMatchRequest) => m.Port)))) } : HTTPRoute)) := by
    apply List.map_congr_left
    intro r hr
    have : r.Route.map (fun d =>
        let n := sm.BackfillNumber service (r.Match.map (fun m => m.Port))
        { d with Destination := backfillDestination n d.Destination }) = r.Route := by
      conv_rhs => rw [← List.map_id r.Route]
      apply List.map_congr_left
      intro d hd
      simp [key _ _ (hh r hr d hd)]
    simp [this]
  have h2 : vs.Spec.Tcp.map (fun r => { r with Route := r.Route.map (fun d =>
        let n := sm.BackfillNumber service (r.Match.map (fun m => m.Port))
        { d with Destination := backfillDestination n d.Destination }) }) = vs.Spec.Tcp := by
    conv_rhs => rw [← List.map_id vs.Spec.Tcp]
    apply List.map_congr_left
    intro r hr
    have : r.Route.map (fun d =>
        let n := sm.BackfillNumber service (r.Match.map (fun m => m.Port))
        { d with Destination := backfillDestination n d.Destination }) = r.Route := by
      conv_rhs => rw [← List.map_id r.Route]
      apply List.map_congr_left
      intro d hd
      simp [key _ _ (ht r hr d hd)]
    simp [this]
  have h3 : vs.Spec.Tls.map (fun r => { r with Route := r.Route.map (fun d =>
        let n := sm.BackfillNumber service (r.Match.map (fun m => m.Port))
        { d with Destination := backfillDestination n d.Destination }) }) = vs.Spec.Tls := by
    conv_rhs => rw [← List.map_id vs.Spec.Tls]
    apply List.map_congr_left
    intro r hr
    have : r.Route.map (fun d =>
        let n := sm.BackfillNumber service (r.Match.map (fun m => m.Port))
        { d with Destination := backfillDestination n d.Destination }) = r.Route := by
      conv_rhs => rw [← List.map_id r.Route]
      apply List.map_congr_left
      intro d hd
      simp [key _ _ (hl r hr d hd)]
    simp [this]
  unfold FillDestinationPort
  rw [h1, h2, h3]

theorem backfillDestination_eq (n : Nat) (d : Destination) :
    backfillDestination n d =
      if d.Port.isSome then d else { d with Port := some { Number := n } } := by
  unfold backfillDestination
  cases d.Port <;> simp

/-- The conversion `uint32(x)` is the identity on the values a port number can take. -/
theorem uint32_of_range (x : Int) (h0 : 0 ≤ x) (h1 : x < 4294967296) :
    uint32 x = x.toNat := by
  unfold uint32
  rw [Int.emod_eq_of_lt h0 h1]

theorem length_flatMap_map {α β γ : Type} (l : List α) (t : List β) (f : α → β → γ) :
    (l.flatMap (fun p => t.map (f p))).length = l.length * t.length := by
  induction l with
  | nil => simp
  | cons a l ih => simp [List.flatMap_cons, ih, Nat.succ_mul, Nat.add_comm]

theorem filter_of_not_any {α : Type} (l : List α) (p : α → Bool) (h : l.any p = false) :
    l.filter (fun o => !p o) = l := by
  apply List.filter_eq_self.mpr
  intro a ha
  have : ¬ (l.any p = true) := by simp [h]
  rw [List.any_eq_true] at this
  cases hp : p a with
  | false => rfl
  | true => exact absurd ⟨a, ha, hp⟩ this

/-! ## The loops of the spec synthesizer -/

/-- The loop of `generateDefaultVirtualServiceSpec` over the ports, started from any
accumulator, with a non-empty subset list. -/
theorem defaultForPort_fold (sm : Servicemesh) (name : String) (subset0 : Subset)
    (subsets : List Subset) (ports : List ServicePort) (vs : VirtualService) :
    ports.foldlM (defaultForPort sm name (subset0 :: subsets)) vs =
      some { vs with Spec := { vs.Spec with
        Http := vs.Spec.Http ++
          (ports.filter (fun p =>
            decide (p.Protocol = Protocol.TCP) && sm.SupportHttpProtocol p.Name)).map (fun p =>
              { Name := p.Name, Match := [{ Port := uint32 p.Port }]
                Route := [{ Destination := { Host := name, Subset := subset0.Name
                                             Port := some { Number := uint32 p.Port } }
                            Weight := 100 }] })
        Tcp := vs.Spec.Tcp ++
          (ports.filter (fun p =>
            decide (p.Protocol = Protocol.TCP) && !sm.SupportHttpProtocol p.Name)).map (fun p =>
              { Match := [{ Port := uint32 p.Port }]
                Route := [{ Destination := { Host := name, Subset := subset0.Name
                                             Port := some { Number := uint32 p.Port } }
                            Weight := 100 }] }) } } := by
  induction ports generalizing vs with
  | nil => simp
  | cons p ps ih =>
    rw [List.foldlM_cons]
    by_cases hp : p.Protocol = Protocol.TCP
    · by_cases hh : sm.SupportHttpProtocol p.Name = true
      · simp [defaultForPort, hp, hh, ih]
      · simp [defaultForPort, hp, hh, ih]
    · simp [defaultForPort, hp, ih]

/-- The loop of the template branch of `generateVirtualServiceSpec` over the ports. -/
theorem templateForPort_fold (sm : Servicemesh) (strategy : Strategy) (ports : List ServicePort)
    (vs : VirtualService) :
    ports.foldl (templateForPort sm strategy) vs =
      { vs with Spec := { vs.Spec with
        Http := vs.Spec.Http ++
          (ports.filter (fun p => sm.SupportHttpProtocol p.Name)).flatMap (fun p =>
            strategy.Spec.Template.Spec.Http.map (fillHTTPRoute p))
        Tcp := vs.Spec.Tcp ++
          (ports.filter (fun p => !sm.SupportHttpProtocol p.Name)).flatMap (fun p =>
            strategy.Spec.Template.Spec.Tcp.map (fillTCPRoute p)) } } := by
  induction ports generalizing vs with
  | nil => simp
  | cons p ps ih =>
    rw [List.foldl_cons, ih]
    by_cases hh : sm.SupportHttpProtocol p.Name = true
    · by_cases h0 : strategy.Spec.Template.Spec.Http = []
      · simp [templateForPort, hh, h0]
      · have : 0 < strategy.Spec.Template.Spec.Http.length := List.length_pos.mpr h0
        simp [templateForPort, hh, this]
    · by_cases h0 : strategy.Spec.Template.Spec.Tcp = []
      · simp [templateForPort, hh, h0]
      · have : 0 < strategy.Spec.Template.Spec.Tcp.length := List.length_pos.mpr h0
        simp [templateForPort, hh, this]

/-- The loop of the governor branch of `generateVirtualServiceSpec` over the ports. -/
theorem governorForPort_fold (sm : Servicemesh) (strategy : Strategy) (g : HTTPRouteDestination)
    (ports : List ServicePort) (vs : VirtualService) :
    ports.foldl (governorForPort sm strategy g) vs =
      { vs with Spec := { vs.Spec with
        Http := vs.Spec.Http ++
          (if strategy.Spec.Template.Spec.Http = [] then []
           else (ports.filter (fun p => sm.SupportHttpProtocol p.Name)).map (fun p =>
             { Route := [g], Match := [{ Port := uint32 p.Port }] }))
        Tcp := vs.Spec.Tcp ++
          (if strategy.Spec.Template.Spec.Tcp = [] then []
           else (ports.filter (fun p => !sm.SupportHttpProtocol p.Name)).map (fun p =>
             { Route := [{ Destination := { Host := g.Destination.Host
                                            Subset := g.Destination.Subset
                                            Port := some { Number := uint32 p.Port } }
                           Weight := g.Weight }]
               Match := [{ Port := uint32 p.Port }] })) } } := by
  induction ports generalizing vs with
  | nil => simp
  | cons p ps ih =>
    rw [List.foldl_cons, ih]
    by_cases hh : sm.SupportHttpProtocol p.Name = true
    · by_cases h0 : strategy.Spec.Template.Spec.Http = []
      · simp [governorForPort, hh, h0]
      · have : 0 < strategy.Spec.Template.Spec.Http.length := List.length_pos.mpr h0
        simp [governorForPort, hh, this, h0]
    · by_cases h0 : strategy.Spec.Template.Spec.Tcp = []
      · simp [governorForPort, hh, h0]
      · have : 0 < strategy.Spec.Template.Spec.Tcp.length := List.length_pos.mpr h0
        simp [governorForPort, hh, this, h0]

theorem fillHTTPRoute_eq (p : ServicePort) (t : HTTPRoute) :
    fillHTTPRoute p t =
      { t with
        Match := if t.Match = [] then [{ Port := uint32 p.Port }]
                 else t.Match.map (fun m => { m with Port := uint32 p.Port })
        Route := t.Route.map (fun d =>
          { d with Destination :=
              { d.Destination with Port := some { Number := uint32 p.Port } } }) } := by
  unfold fillHTTPRoute
  by_cases h : t.Match = []
  · simp [h]
  · have : t.Match.length ≠ 0 := fun h0 => h (List.length_eq_zero.mp h0)
    simp [h, this]

theorem fillTCPRoute_eq (p : ServicePort) (t : TCPRoute) :
    fillTCPRoute p t =
      { t with
        Match := if t.Match = [] then [{ Port := uint32 p.Port }]
                 else t.Match.map (fun m => { m with Port := uint32 p.Port })
        Route := t.Route.map (fun d =>
          { d with Destination :=
              { d.Destination with Port := some { Number := uint32 p.Port } } }) } := by
  unfold fillTCPRoute
  by_cases h : t.Match = []
  · simp [h]
  · have : t.Match.length ≠ 0 := fun h0 => h (List.length_eq_zero.mp h0)
    simp [h, this]

/-- Without a governor version the result of `generateVirtualServiceSpec` is the template
replicated per port; the backfill finds the port selector of every route destination set and
fills the mirror destinations only. -/
theorem generateVirtualServiceSpec_no_governor (sm : Servicemesh) (strategy : Strategy)
    (service : Service) (h : strategy.Spec.GovernorVersion = "") :
    generateVirtualServiceSpec sm strategy service =
      { Spec := {
          Hosts := strategy.Spec.Template.Spec.Hosts
          Http := ((service.Spec.Ports.filter (fun p => sm.SupportHttpProtocol p.Name)).flatMap
            (fun p => strategy.Spec.Template.Spec.Http.map (fillHTTPRoute p))).map (fun r =>
              { r with Mirror := r.Mirror.map (backfillDestination
                  (sm.BackfillNumber service (r.Match.map (fun m => m.Port)))) })
          Tcp := (service.Spec.Ports.filter (fun p => !sm.SupportHttpProtocol p.Name)).flatMap
            (fun p => strategy.Spec.Template.Spec.Tcp.map (fillTCPRoute p)) } } := by
  unfold generateVirtualServiceSpec
  simp only [h, String.length, List.length_nil, if_true]
  rw [templateForPort_fold, FillDestinationPort_of_ports_set]
  · simp
  · intro r hr d hd
    simp only [List.nil_append, List.mem_flatMap, List.mem_map, List.mem_filter] at hr
    obtain ⟨p, _, t, _, rfl⟩ := hr
    simp only [fillHTTPRoute, List.mem_map] at hd
    obtain ⟨d0, _, rfl⟩ := hd
    rfl
  · intro r hr d hd
    simp only [List.nil_append, List.mem_flatMap, List.mem_map, List.mem_filter] at hr
    obtain ⟨p, _, t, _, rfl⟩ := hr
    simp only [fillTCPRoute, List.mem_map] at hd
    obtain ⟨d0, _, rfl⟩ := hd
    rfl
  · intro r hr
    simp at hr

/-! ## The patch merger -/

theorem mapGet_mapSet {α : Type} (m : List (String × α)) (k n : String) (v : α) :
    mapGet (mapSet m k v) n = if k = n then some v else mapGet m n := by
  unfold mapGet mapSet
  by_cases h : k = n
  · simp [h]
  · have hkn : (k == n) = false := by simpa using h
    simp only [List.find?_cons, hkn, h, if_false, List.find?_filter]
    congr 1
    congr 1
    funext e
    by_cases he : e.1 = n
    · subst he
      have : e.1 ≠ k := fun h' => h h'.symm
      simp [this]
    · simp [he]

/-- A lookup in the map built by `patchHTTPRoute` finds the last persisted route of that name. -/
theorem mapGet_originMap (origin : List HTTPRoute) (m : List (String × HTTPRoute)) (n : String) :
    mapGet (origin.foldl (fun originMap o => mapSet originMap o.Name o) m) n =
      ((origin.reverse.find? (fun o => o.Name == n)).or (mapGet m n)) := by
  induction origin generalizing m with
  | nil => simp
  | cons o os ih =>
    rw [List.foldl_cons, ih, mapGet_mapSet, List.reverse_cons, List.find?_append]
    cases hfind : List.find? (fun o => o.Name == n) os.reverse with
    | some x => simp
    | none =>
      by_cases h : o.Name = n
      · simp [h]
      · simp [h]

theorem patchHTTPRoute_eq (origin target : List HTTPRoute) :
    patchHTTPRoute origin target =
      target.map (fun t =>
        match origin.reverse.find? (fun o => o.Name == t.Name) with
        | some o => { o with Match := t.Match, Route := t.Route }
        | none => t) := by
  unfold patchHTTPRoute
  apply List.map_congr_left
  intro t _
  rw [mapGet_originMap]
  cases hfind : List.find? (fun o => o.Name == t.Name) origin.reverse <;> simp [mapGet]

theorem patchHTTPRoute_nil (origin : List HTTPRoute) : patchHTTPRoute origin [] = [] := by
  simp [patchHTTPRoute]

/-! ## The subsets a strategy refers to -/

theorem mem_Insert (set : StringSet) (item k : String) :
    k ∈ StringSet.Insert set item ↔ k ∈ set ∨ k = item := by
  unfold StringSet.Insert
  by_cases h : item ∈ set
  · simp only [h, if_true]
    constructor
    · intro hk; exact Or.inl hk
    · rintro (hk | rfl)
      · exact hk
      · exact h
  · simp [h]

theorem mem_foldl_Insert {α : Type} (l : List α) (f : α → String) (set : StringSet)
    (k : String) :
    k ∈ l.foldl (fun set a => StringSet.Insert set (f a)) set ↔ k ∈ set ∨ ∃ a ∈ l, f a = k := by
  induction l generalizing set with
  | nil => simp
  | cons a l ih =>
    rw [List.foldl_cons, ih, mem_Insert]
    constructor
    · rintro ((h | h) | ⟨b, hb, hk⟩)
      · exact Or.inl h
      · exact Or.inr ⟨a, List.mem_cons_self _ _, h.symm⟩
      · exact Or.inr ⟨b, List.mem_cons_of_mem _ hb, hk⟩
    · rintro (h | ⟨b, hb, hk⟩)
      · exact Or.inl (Or.inl h)
      · rcases List.mem_cons.mp hb with rfl | hb
        · exact Or.inl (Or.inr hk.symm)
        · exact Or.inr ⟨b, hb, hk⟩

theorem mem_foldl_of_step {ρ : Type} (step : StringSet → ρ → StringSet)
    (P : ρ → String → Prop)
    (hstep : ∀ set r k, k ∈ step set r ↔ k ∈ set ∨ P r k)
    (routes : List ρ) (set : StringSet) (k : String) :
    k ∈ routes.foldl step set ↔ k ∈ set ∨ ∃ r ∈ routes, P r k := by
  induction routes generalizing set with
  | nil => simp
  | cons r rs ih =>
    rw [List.foldl_cons, ih, hstep]
    constructor
    · rintro ((h | h) | ⟨r', hr', h⟩)
      · exact Or.inl h
      · exact Or.inr ⟨r, List.mem_cons_self _ _, h⟩
      · exact Or.inr ⟨r', List.mem_cons_of_mem _ hr', h⟩
    · rintro (h | ⟨r', hr', h⟩)
      · exact Or.inl (Or.inl h)
      · rcases List.mem_cons.mp hr' with rfl | hr'
        · exact Or.inl (Or.inr h)
        · exact Or.inr ⟨r', hr', h⟩

/-- The members of `getSubsets`: the subsets of the route destinations of the HTTP, TCP and TLS
routes of the template and of the HTTP mirror destinations. -/
theorem mem_getSubsets (strategy : Strategy) (k : String) :
    k ∈ getSubsets strategy ↔
      (∃ r ∈ strategy.Spec.Template.Spec.Http,
        (∃ d ∈ r.Route, d.Destination.Subset = k) ∨ (∃ m, r.Mirror = some m ∧ m.Subset = k)) ∨
      (∃ r ∈ strategy.Spec.Template.Spec.Tcp, ∃ d ∈ r.Route, d.Destination.Subset = k) ∨
      (∃ r ∈ strategy.Spec.Template.Spec.Tls, ∃ d ∈ r.Route, d.Destination.Subset = k) := by
  unfold getSubsets
  simp only
  rw [mem_foldl_of_step _ (fun (r : TLSRoute) k => ∃ d ∈ r.Route, d.Destination.Subset = k),
    mem_foldl_of_step _ (fun (r : TCPRoute) k => ∃ d ∈ r.Route, d.Destination.Subset = k),
    mem_foldl_of_step _ (fun (r : HTTPRoute) k => (∃ d ∈ r.Route, d.Destination.Subset = k) ∨
      (∃ m, r.Mirror = some m ∧ m.Subset = k))]
  · simp only [List.not_mem_nil, false_or]
    exact or_assoc
  · intro set r k'
    cases hm : r.Mirror with
    | none => simp [mem_foldl_Insert]
    | some m =>
      simp only [mem_Insert, mem_foldl_Insert, Option.some.injEq, exists_eq_left']
      constructor
      · rintro ((h | h) | h)
        · exact Or.inl h
        · exact Or.inr (Or.inl h)
        · exact Or.inr (Or.inr h.symm)
      · rintro (h | h | h)
        · exact Or.inl (Or.inl h)
        · exact Or.inl (Or.inr h)
        · exact Or.inr h.symm
  · intro set r k'
    exact mem_foldl_Insert r.Route (fun d => d.Destination.Subset) set k'
  · intro set r k'
    exact mem_foldl_Insert r.Route (fun d => d.Destination.Subset) set k'

theorem nonExist_fold (set : StringSet) (setNames : StringSet) (b : Bool) :
    set.foldl (fun nonExist k => if !StringSet.Has setNames k then true else nonExist) b = true ↔
      b = true ∨ ∃ k ∈ set, k ∉ setNames := by
  induction set generalizing b with
  | nil => simp
  | cons k ks ih =>
    rw [List.foldl_cons, ih]
    by_cases hk : k ∈ setNames
    · simp [StringSet.Has, hk]
    · simp [StringSet.Has, hk]

theorem mem_setNames (subsets : List Subset) (k : String) :
    k ∈ subsets.foldl (fun setNames subset => StringSet.Insert setNames subset.Name) [] ↔
      k ∈ subsets.map (fun s => s.Name) := by
  rw [mem_foldl_Insert]
  simp

/-! ## The reconciler -/

theorem clientDeleteVirtualService_eq (faults : Faults) (store : Store) (ns name : String)
    (hdelvs : faults.DeleteVirtualService = none) :
    clientDeleteVirtualService faults store ns name =
      (if store.VirtualServices.any (fun o => o.Namespace == ns && o.Name == name) then none
       else some (Error.NotFound ("virtualservice " ++ name ++ " not found")),
       { store with VirtualServices :=
          store.VirtualServices.filter (fun o => !(o.Namespace == ns && o.Name == name)) }) := by
  unfold clientDeleteVirtualService
  rw [hdelvs]
  cases h : store.VirtualServices.any (fun o => o.Namespace == ns && o.Name == name)
  · rw [filter_of_not_any _ _ h]
    rfl
  · rfl

theorem clientDeleteStrategy_eq (faults : Faults) (store : Store) (ns name : String)
    (hdelst : faults.DeleteStrategy = none) :
    clientDeleteStrategy faults store ns name =
      (if store.Strategies.any (fun o => o.Namespace == ns && o.Name == name) then none
       else some (Error.NotFound ("strategy " ++ name ++ " not found")),
       { store with Strategies :=
          store.Strategies.filter (fun o => !(o.Namespace == ns && o.Name == name)) }) := by
  unfold clientDeleteStrategy
  rw [hdelst]
  cases h : store.Strategies.any (fun o => o.Namespace == ns && o.Name == name)
  · rw [filter_of_not_any _ _ h]
    rfl
  · rfl

/-- When both deletes reach the API server, the branch for a missing service removes the
virtualservice and the strategy of that name and returns nil. -/
theorem syncDeleted_eq (faults : Faults) (store : Store) (ns name : String)
    (hdelvs : faults.DeleteVirtualService = none) (hdelst : faults.DeleteStrategy = none) :
    syncDeleted faults store ns name =
      { outcome := Outcome.Returned none
        store := { store with
          VirtualServices :=
            store.VirtualServices.filter (fun o => !(o.Namespace == ns && o.Name == name))
          Strategies :=
            store.Strategies.filter (fun o => !(o.Namespace == ns && o.Name == name)) }
        calls := [Call.DeleteVirtualService ns name, Call.DeleteStrategy ns name] } := by
  unfold syncDeleted
  rw [clientDeleteVirtualService_eq faults store ns name hdelvs]
  simp only
  rw [clientDeleteStrategy_eq faults _ ns name hdelst]
  cases store.VirtualServices.any (fun o => o.Namespace == ns && o.Name == name) <;>
    cases store.Strategies.any (fun o => o.Namespace == ns && o.Name == name) <;>
    simp [IsNotFound]

theorem syncService_of_absent (sm : Servicemesh) (faults : Faults) (store : Store)
    (key ns name : String)
    (hkey : SplitMetaNamespaceKey key = Except.ok (ns, name))
    (habsent : ∀ o ∈ store.Services, ¬ (o.Namespace = ns ∧ o.Name = name))
    (hget : faults.GetService = none) :
    syncService sm faults store key = syncDeleted faults store ns name := by
  have hfind : store.Services.find? (fun o => o.Namespace == ns && o.Name == name) = none := by
    apply List.find?_eq_none.mpr
    intro o ho
    simpa using habsent o ho
  unfold syncService
  simp [hkey, getService, hget, hfind, IsNotFound]

/-- A run whose reads succeed, on a qualifying workload with subsets and at most one strategy,
is the run of `applySpec` on the desired spec. -/
theorem syncService_eq_applySpec (sm : Servicemesh) (faults : Faults) (store : Store)
    (key ns name : String) (service : Service) (destinationRule : DestinationRule)
    (strategies : List Strategy) (current : VirtualService) (spec : VirtualServiceSpec)
    (hkey : SplitMetaNamespaceKey key = Except.ok (ns, name))
    (hsvc : getService faults store ns name = Except.ok service)
    (hq : lacksRequirements sm service = false)
    (hdr : getDestinationRule faults store ns name = Except.ok destinationRule)
    (hsub : destinationRule.Spec.Subsets ≠ [])
    (hlist : listStrategies sm faults store ns (sm.GetComponentName service.toObjectMeta) =
      Except.ok strategies)
    (hone : strategies.length ≤ 1)
    (hcur : currentVirtualService sm faults store ns (sm.GetComponentName service.toObjectMeta)
      service = Except.ok current)
    (hspec : desiredSpec sm name destinationRule.Spec.Subsets service strategies = some spec) :
    syncService sm faults store key = applySpec faults store ns name service current spec := by
  have hsub' : ¬ destinationRule.Spec.Subsets.length = 0 := fun h =>
    hsub (List.length_eq_zero.mp h)
  have hone' : ¬ 1 < strategies.length := Nat.not_lt.mpr hone
  unfold syncService
  simp [hkey, hsvc, hq, hdr, hsub', hlist, hone', hcur, hspec]

/-- A RoutingPolicy that `applySpec` sends in a create or update has a route. -/
theorem applySpec_writes_routes (faults : Faults) (store : Store) (ns name : String)
    (service : Service) (current : VirtualService) (spec : VirtualServiceSpec)
    (n : String) (vs : VirtualService)
    (h : Call.CreateVirtualService n vs ∈
        (applySpec faults store ns name service current spec).calls ∨
      Call.UpdateVirtualService n vs ∈
        (applySpec faults store ns name service current spec).calls) :
    vs.Spec.Http ≠ [] ∨ vs.Spec.Tcp ≠ [] ∨ vs.Spec.Tls ≠ [] := by
  unfold applySpec at h
  simp only at h
  split at h
  · simp at h
  · split at h
    · simp at h
    · rename_i hne
      have hne' : ¬ ((patchHTTPRoute current.Spec.Http spec.Http) = [] ∧ spec.Tcp = [] ∧
          spec.Tls = []) := by
        intro hc
        apply hne
        simp [hc.1, hc.2.1, hc.2.2]
      have hgoal : (patchHTTPRoute current.Spec.Http spec.Http) ≠ [] ∨ spec.Tcp ≠ [] ∨
          spec.Tls ≠ [] := by
        by_contra hcon
        push_neg at hcon
        exact hne' hcon
      split at h
      · split at h <;> simp at h <;> (obtain ⟨_, rfl⟩ := h; exact hgoal)
      · split at h <;> simp at h <;> (obtain ⟨_, rfl⟩ := h; exact hgoal)

theorem syncDeleted_calls (faults : Faults) (store : Store) (ns name : String) (c : Call)
    (h : c ∈ (syncDeleted faults store ns name).calls) :
    c = Call.DeleteVirtualService ns name ∨ c = Call.DeleteStrategy ns name := by
  unfold syncDeleted at h
  simp only at h
  split at h
  · simp at h; exact Or.inl h
  · split at h
    · simp at h; exact h
    · simp at h; exact h

/-- No run of `syncService` sends a create or update of a RoutingPolicy without routes. -/
theorem syncService_writes_routes (sm : Servicemesh) (faults : Faults) (store : Store)
    (key : String) (n : String) (vs : VirtualService)
    (h : Call.CreateVirtualService n vs ∈ (syncService sm faults store key).calls ∨
      Call.UpdateVirtualService n vs ∈ (syncService sm faults store key).calls) :
    vs.Spec.Http ≠ [] ∨ vs.Spec.Tcp ≠ [] ∨ vs.Spec.Tls ≠ [] := by
  unfold syncService at h
  simp only at h
  repeat' split at h
  all_goals first
    | (simp at h)
    | exact applySpec_writes_routes _ _ _ _ _ _ _ _ _ h
    | (rcases h with h | h <;> rcases syncDeleted_calls _ _ _ _ _ h with h' | h' <;> cases h')

/-! ## The retry handler -/

theorem failedAttempts_le (err : Error) (key : String) (v : Worker)
    (h : v.queue.NumRequeues key = 0) (n : Nat) (hn : n ≤ maxRetries) :
    (failedAttempts err key n v).queue.requeued = v.queue.requeued ++ List.replicate n key ∧
      (failedAttempts err key n v).reported = v.reported ∧
      (failedAttempts err key n v).queue.NumRequeues key = n := by
  induction n with
  | zero => simp [failedAttempts, h]
  | succ n ih =>
    obtain ⟨h1, h2, h3⟩ := ih (Nat.le_of_succ_le hn)
    have hlt : (failedAttempts err key n v).queue.NumRequeues key < maxRetries := by
      rw [h3]; exact hn
    simp only [failedAttempts, handleErr, hlt, if_true]
    refine ⟨?_, h2, ?_⟩
    · simp [WorkQueue.AddRateLimited, h1, List.replicate_succ', List.append_assoc]
    · simp only [WorkQueue.NumRequeues] at h3
      simp [WorkQueue.AddRateLimited, WorkQueue.NumRequeues, h3]

/-! ## The claims -/

/-- C1 (the code departs from the claim): on `twoRouteStore`, a store with a strategy whose
template has two HTTP routes of the same (empty) name, the first run of `syncService` creates
the RoutingPolicy and returns nil; the second run on the resulting store, with nothing else
changed, does not take the no-op short circuit but sends an update, in which the template
timeout of the first route is lost: `patchHTTPRoute` patches both desired routes from the last
persisted route of that name. -/
theorem syncService_second_run_updates :
    (syncService sampleMesh {} twoRouteStore "default/reviews").outcome =
        Outcome.Returned none ∧
      (syncService sampleMesh {} twoRouteStore "default/reviews").calls.length = 1 ∧
      (syncService sampleMesh {}
        (syncService sampleMesh {} twoRouteStore "default/reviews").store
        "default/reviews").calls =
        [Call.UpdateVirtualService "default" twoRouteSecondWrite] := by
  decide

/-- C2 (amended): with a non-empty subset list, `generateDefaultVirtualServiceSpec` returns a
spec with the host `name`, no TLS route, and exactly one route per workload port of protocol
TCP, in port order: one HTTP route named after the port for a port that is HTTP-capable by its
name, one TCP route for any other; each with a single match on the port number and a single
destination of weight 100, host `name`, the first subset and that port number.  Ports of another
protocol yield no route. -/
theorem generateDefaultVirtualServiceSpec_routes (sm : Servicemesh) (name : String)
    (subset0 : Subset) (subsets : List Subset) (service : Service) :
    ∃ vs, generateDefaultVirtualServiceSpec sm name (subset0 :: subsets) service = some vs ∧
      vs.Spec.Hosts = [name] ∧ vs.Spec.Tls = [] ∧
      vs.Spec.Http =
        (service.Spec.Ports.filter (fun p =>
          decide (p.Protocol = Protocol.TCP) && sm.SupportHttpProtocol p.Name)).map (fun p =>
            { Name := p.Name, Match := [{ Port := uint32 p.Port }]
              Route := [{ Destination := { Host := name, Subset := subset0.Name
                                           Port := some { Number := uint32 p.Port } }
                          Weight := 100 }] }) ∧
      vs.Spec.Tcp =
        (service.Spec.Ports.filter (fun p =>
          decide (p.Protocol = Protocol.TCP) && !sm.SupportHttpProtocol p.Name)).map (fun p =>
            { Match := [{ Port := uint32 p.Port }]
              Route := [{ Destination := { Host := name, Subset := subset0.Name
                                           Port := some { Number := uint32 p.Port } }
                          Weight := 100 }] }) := by
  unfold generateDefaultVirtualServiceSpec
  rw [defaultForPort_fold]
  exact ⟨_, rfl, rfl, rfl, by simp, by simp⟩

/-- C2, the port fan-out example: the ports `http:8080` and `grpc-tcp:9090` yield one HTTP route
for 8080 and one TCP route for 9090, both to the first subset with weight 100. -/
theorem generateDefaultVirtualServiceSpec_fan_out :
    ∃ vs, generateDefaultVirtualServiceSpec sampleMesh "reviews" [{ Name := "v1" }]
        (sampleService samplePorts) = some vs ∧
      vs.Spec.Http =
        [{ Name := "http", Match := [{ Port := 8080 }]
           Route := [{ Destination := { Host := "reviews", Subset := "v1"
                                        Port := some { Number := 8080 } }
                       Weight := 100 }] }] ∧
      vs.Spec.Tcp =
        [{ Match := [{ Port := 9090 }]
           Route := [{ Destination := { Host := "reviews", Subset := "v1"
                                        Port := some { Number := 9090 } }
                       Weight := 100 }] }] := by
  obtain ⟨vs, h, _, _, hh, ht⟩ := generateDefaultVirtualServiceSpec_routes sampleMesh "reviews"
    { Name := "v1" } [] (sampleService samplePorts)
  exact ⟨vs, h, by rw [hh]; decide, by rw [ht]; decide⟩

/-- C2, counterexample to the claim as stated: a workload whose only port is the UDP port
`dns:53` has one port, and the default spec has no route at all. -/
theorem generateDefaultVirtualServiceSpec_skips_udp :
    udpService.Spec.Ports.length = 1 ∧
      (generateDefaultVirtualServiceSpec sampleMesh "reviews" [{ Name := "v1" }]
        udpService).map (fun vs => (vs.Spec.Http.length, vs.Spec.Tcp.length)) = some (0, 0) := by
  decide

/-- C3 (amended): for a strategy with empty GovernorVersion, the HTTP routes returned by
`generateVirtualServiceSpec` are the concatenation, over the HTTP-capable ports in order, of the
template HTTP routes in which every match clause has the port number of that port (a single
match on it when the template route has none), every route destination has the port selector of
that number, and a mirror destination without port selector has got the backfill number for the
match ports of its route; all other fields are kept.  The TCP routes are the same construction
over the other ports and the template TCP routes (which have no mirror).  The lengths are the
products of the number of ports and the number of template routes. -/
theorem generateVirtualServiceSpec_template_per_port (sm : Servicemesh) (strategy : Strategy)
    (service : Service) (h : strategy.Spec.GovernorVersion = "") :
    (generateVirtualServiceSpec sm strategy service).Spec.Http =
      (service.Spec.Ports.filter (fun p => sm.SupportHttpProtocol p.Name)).flatMap (fun p =>
        strategy.Spec.Template.Spec.Http.map (fun t =>
          { t with
            Match := if t.Match = [] then [{ Port := uint32 p.Port }]
                     else t.Match.map (fun m => { m with Port := uint32 p.Port })
            Route := t.Route.map (fun d =>
              { d with Destination :=
                  { d.Destination with Port := some { Number := uint32 p.Port } } })
            Mirror := t.Mirror.map (fun mirror =>
              if mirror.Port.isSome then mirror
              else { mirror with Port := some { Number :=
                (sm.BackfillNumber service
                  (if t.Match = [] then [uint32 p.Port]
                   else t.Match.map (fun _ => uint32 p.Port))) } }) })) ∧
    (generateVirtualServiceSpec sm strategy service).Spec.Tcp =
      (service.Spec.Ports.filter (fun p => !sm.SupportHttpProtocol p.Name)).flatMap (fun p =>
        strategy.Spec.Template.Spec.Tcp.map (fun t =>
          { t with
            Match := if t.Match = [] then [{ Port := uint32 p.Port }]
                     else t.Match.map (fun m => { m with Port := uint32 p.Port })
            Route := t.Route.map (fun d =>
              { d with Destination :=
                  { d.Destination with Port := some { Number := uint32 p.Port } } }) })) ∧
    (generateVirtualServiceSpec sm strategy service).Spec.Http.length =
      (service.Spec.Ports.filter (fun p => sm.SupportHttpProtocol p.Name)).length *
        strategy.Spec.Template.Spec.Http.length ∧
    (generateVirtualServiceSpec sm strategy service).Spec.Tcp.length =
      (service.Spec.Ports.filter (fun p => !sm.SupportHttpProtocol p.Name)).length *
        strategy.Spec.Template.Spec.Tcp.length := by
  rw [generateVirtualServiceSpec_no_governor sm strategy service h]
  have e2 : ∀ p, fillTCPRoute p = fun t => _ := fun p => funext (fillTCPRoute_eq p)
  have eb : ∀ n, backfillDestination n = fun mirror => _ :=
    fun n => funext (backfillDestination_eq n)
  refine ⟨?_, ?_, ?_, ?_⟩
  · simp only [List.map_flatMap, List.map_map]
    congr 1
    funext p
    apply List.map_congr_left
    intro t _
    simp only [Function.comp, fillHTTPRoute_eq, eb]
    have hc : ((fun (m : HTTPMatchRequest) => m.Port) ∘
        fun (m : HTTPMatchRequest) => ({ m with Port := uint32 p.Port } : HTTPMatchRequest)) =
        fun _ => uint32 p.Port := rfl
    by_cases hm : t.Match = []
    · simp [hm]
    · simp [hm, List.map_map, hc]
  · simp only [e2]
  · simp only [List.length_map]
    exact length_flatMap_map _ _ fillHTTPRoute
  · exact length_flatMap_map _ _ fillTCPRoute

/-- C3 on a concrete input: the template `twoRouteTemplate` (two HTTP routes, one TCP route) on
the ports `http:8080` and `grpc-tcp:9090` gives its two HTTP routes with the port 8080 in every
match clause and route destination, and its TCP route with the port 9090. -/
theorem generateVirtualServiceSpec_template_per_port_witness :
    (sampleStrategy StrategyPolicy.PolicyImmediately "" twoRouteTemplate).Spec.GovernorVersion
        = "" ∧
      (generateVirtualServiceSpec sampleMesh
        (sampleStrategy StrategyPolicy.PolicyImmediately "" twoRouteTemplate)
        (sampleService samplePorts)).Spec.Http =
        [{ Match := [{ Uri := some "/api", Port := 8080 }], Timeout := some 5
           Route := [{ Destination := { Host := "reviews", Subset := "v1"
                                        Port := some { Number := 8080 } }
                       Weight := 100 }] },
         { Match := [{ Port := 8080 }]
           Route := [{ Destination := { Host := "reviews", Subset := "v1"
                                        Port := some { Number := 8080 } }
                       Weight := 100 }] }] ∧
      (generateVirtualServiceSpec sampleMesh
        (sampleStrategy StrategyPolicy.PolicyImmediately "" twoRouteTemplate)
        (sampleService samplePorts)).Spec.Tcp =
        [{ Match := [{ Port := 9090 }]
           Route := [{ Destination := { Host := "reviews", Subset := "v1"
                                        Port := some { Number := 9090 } }
                       Weight := 100 }] }] :=
  ⟨rfl,
    (generateVirtualServiceSpec_template_per_port sampleMesh
      (sampleStrategy StrategyPolicy.PolicyImmediately "" twoRouteTemplate)
      (sampleService samplePorts) rfl).1.trans (by decide),
    (generateVirtualServiceSpec_template_per_port sampleMesh
      (sampleStrategy StrategyPolicy.PolicyImmediately "" twoRouteTemplate)
      (sampleService samplePorts) rfl).2.1.trans (by decide)⟩

/-- C3, counterexample to the claim as stated: for the template `mirrorTemplate`, whose route
has a mirror destination without port selector, and the port `http:8080`, the returned route is
not the template route with only the match port and the route destination port set: its mirror
destination has got the port 8080 as well. -/
theorem generateVirtualServiceSpec_fills_mirror_port :
    (generateVirtualServiceSpec sampleMesh
        (sampleStrategy StrategyPolicy.PolicyImmediately "" mirrorTemplate)
        (sampleService [{ Name := "http", Port := 8080 }])).Spec.Http =
      [{ Match := [{ Port := 8080 }]
         Route := [{ Destination := { Host := "reviews", Subset := "v1"
                                      Port := some { Number := 8080 } }
                     Weight := 100 }]
         Mirror := some { Host := "reviews", Subset := "v2", Port := some { Number := 8080 } } }] ∧
    (generateVirtualServiceSpec sampleMesh
        (sampleStrategy StrategyPolicy.PolicyImmediately "" mirrorTemplate)
        (sampleService [{ Name := "http", Port := 8080 }])).Spec.Http ≠
      mirrorTemplate.Http.map (fun t =>
        { t with
          Match := if t.Match = [] then [{ Port := 8080 }]
                   else t.Match.map (fun m => { m with Port := 8080 })
          Route := t.Route.map (fun d =>
            { d with Destination := { d.Destination with Port := some { Number := 8080 } } }) }) := by
  decide

/-- C4 (amended): for a strategy with a non-empty GovernorVersion, `generateVirtualServiceSpec`
yields one HTTP route per HTTP-capable port if the template has at least one HTTP route, and no
HTTP route if it has none; one TCP route per other port if the template has at least one TCP
route, and no TCP route if it has none.  Each such route has a single match on its port and a
single destination of weight 100 whose host is the workload name and whose subset is the
governor version, however many routes the template has. -/
theorem generateVirtualServiceSpec_governor (sm : Servicemesh) (strategy : Strategy)
    (service : Service) (h : strategy.Spec.GovernorVersion ≠ "") :
    ∃ port : Option PortSelector,
      (generateVirtualServiceSpec sm strategy service).Spec.Http =
        (if strategy.Spec.Template.Spec.Http = [] then []
         else (service.Spec.Ports.filter (fun p => sm.SupportHttpProtocol p.Name)).map (fun p =>
           { Match := [{ Port := uint32 p.Port }]
             Route := [{ Destination := { Host := service.Name
                                          Subset := strategy.Spec.GovernorVersion
                                          Port := port }
                         Weight := 100 }] })) ∧
      (generateVirtualServiceSpec sm strategy service).Spec.Tcp =
        (if strategy.Spec.Template.Spec.Tcp = [] then []
         else (service.Spec.Ports.filter (fun p => !sm.SupportHttpProtocol p.Name)).map (fun p =>
           { Match := [{ Port := uint32 p.Port }]
             Route := [{ Destination := { Host := service.Name
                                          Subset := strategy.Spec.GovernorVersion
                                          Port := some { Number := uint32 p.Port } }
                         Weight := 100 }] })) ∧
      (generateVirtualServiceSpec sm strategy service).Spec.Tls = [] ∧
      (generateVirtualServiceSpec sm strategy service).Spec.Hosts =
        strategy.Spec.Template.Spec.Hosts := by
  have hlen : ¬ strategy.Spec.GovernorVersion.length = 0 := fun h0 =>
    h ((string_length_eq_zero _).mp h0)
  unfold generateVirtualServiceSpec
  simp only [hlen, if_false]
  rw [governorForPort_fold]
  refine ⟨(fillSharedDestination sm service
      { Host := service.Name, Subset := strategy.Spec.GovernorVersion }
      (if strategy.Spec.Template.Spec.Http = [] then []
       else (service.Spec.Ports.filter (fun p => sm.SupportHttpProtocol p.Name)).map (fun p =>
         { Route := [{ Destination := { Host := service.Name
                                        Subset := strategy.Spec.GovernorVersion }
                       Weight := 100 }]
           Match := [{ Port := uint32 p.Port }] }))).Port, ?_, ?_, ?_, ?_⟩
  · simp only [FillDestinationPortShared, FillDestinationPort, List.nil_append]
    split
    · simp
    · simp only [List.map_map]
      apply List.map_congr_left
      intro p _
      simp only [Function.comp, List.map_cons, List.map_nil]
      have e := fillSharedDestination_host sm service
        (List.map (fun p =>
          ({ Route := [{ Destination := { Host := service.Name
                                          Subset := strategy.Spec.GovernorVersion }
                         Weight := 100 }]
             Match := [{ Port := uint32 p.Port }] } : HTTPRoute))
          (List.filter (fun p => sm.SupportHttpProtocol p.Name) service.Spec.Ports))
        { Host := service.Name, Subset := strategy.Spec.GovernorVersion }
      revert e
      generalize fillSharedDestination sm service _ _ = x
      intro e
      cases x
      simp only at e
      simp [e.1, e.2]
  · simp only [FillDestinationPortShared, FillDestinationPort, List.nil_append]
    split
    · simp
    · simp only [List.map_map]
      apply List.map_congr_left
      intro p _
      simp [backfillDestination]
  · simp [FillDestinationPortShared, FillDestinationPort]
  · simp [FillDestinationPortShared, FillDestinationPort]

/-- C4 on a concrete input: the pinned subset `canary`, the ports `http:8080` and
`grpc-tcp:9090` and the template `twoRouteTemplate` (two HTTP routes, one TCP route) give one
HTTP route and one TCP route, the latter with weight 100 to `canary`. -/
theorem generateVirtualServiceSpec_governor_witness :
    (sampleStrategy StrategyPolicy.PolicyImmediately "canary"
        twoRouteTemplate).Spec.GovernorVersion ≠ "" ∧
      (generateVirtualServiceSpec sampleMesh
        (sampleStrategy StrategyPolicy.PolicyImmediately "canary" twoRouteTemplate)
        (sampleService samplePorts)).Spec.Http.length = 1 ∧
      (generateVirtualServiceSpec sampleMesh
        (sampleStrategy StrategyPolicy.PolicyImmediately "canary" twoRouteTemplate)
        (sampleService samplePorts)).Spec.Tcp =
        [{ Match := [{ Port := 9090 }]
           Route := [{ Destination := { Host := "reviews", Subset := "canary"
                                        Port := some { Number := 9090 } }
                       Weight := 100 }] }] := by
  obtain ⟨port, hh, ht, _, _⟩ := generateVirtualServiceSpec_governor sampleMesh
    (sampleStrategy StrategyPolicy.PolicyImmediately "canary" twoRouteTemplate)
    (sampleService samplePorts) (by decide)
  exact ⟨by decide, by rw [hh]; rfl, by rw [ht]; decide⟩

/-- C4, counterexample to the claim as stated: with the pinned subset `canary`, two ports and a
template without routes, no route is synthesized. -/
theorem generateVirtualServiceSpec_governor_empty_template :
    (sampleService samplePorts).Spec.Ports.length = 2 ∧
      (generateVirtualServiceSpec sampleMesh
        (sampleStrategy StrategyPolicy.PolicyImmediately "canary" {})
        (sampleService samplePorts)).Spec.Http = [] ∧
      (generateVirtualServiceSpec sampleMesh
        (sampleStrategy StrategyPolicy.PolicyImmediately "canary" {})
        (sampleService samplePorts)).Spec.Tcp = [] := by
  decide

/-- C5: `patchHTTPRoute` returns the target routes in their order, each patched on its own: a
route `t` whose name is the name of a persisted route becomes that persisted route (the last
one of that name in `origin`) with `Match` and `Route` taken from `t`; a route whose name no
persisted route has is returned unchanged. -/
theorem patchHTTPRoute_spec (origin target : List HTTPRoute) :
    patchHTTPRoute origin target =
        target.map (fun t =>
          match origin.reverse.find? (fun o => o.Name == t.Name) with
          | some o => { o with Match := t.Match, Route := t.Route }
          | none => t) ∧
      List.Forall₂ (fun t r =>
          (∃ o ∈ origin, o.Name = t.Name ∧ r = { o with Match := t.Match, Route := t.Route }) ∨
          ((∀ o ∈ origin, o.Name ≠ t.Name) ∧ r = t))
        target (patchHTTPRoute origin target) := by
  refine ⟨patchHTTPRoute_eq origin target, ?_⟩
  rw [patchHTTPRoute_eq, List.forall₂_map_right_iff]
  apply List.forall₂_same.mpr
  intro t _
  cases hfind : List.find? (fun o => o.Name == t.Name) origin.reverse with
  | some o =>
    left
    refine ⟨o, ?_, ?_, rfl⟩
    · exact List.mem_reverse.mp (List.mem_of_find?_eq_some hfind)
    · simpa using List.find?_some hfind
  | none =>
    right
    refine ⟨?_, rfl⟩
    intro o ho
    have := List.find?_eq_none.mp hfind o (List.mem_reverse.mpr ho)
    simpa using this

/-- C5, field preservation: a persisted route `primary` with a timeout, synthesized anew with
another match and destination, keeps the timeout and takes the new match and destination. -/
theorem patchHTTPRoute_keeps_timeout :
    patchHTTPRoute
        [{ Name := "primary", Timeout := some 30, Match := [{ Port := 80 }]
           Route := [{ Destination := { Host := "reviews", Subset := "v1" }, Weight := 100 }] }]
        [{ Name := "primary", Match := [{ Port := 8080 }]
           Route := [{ Destination := { Host := "reviews", Subset := "v2" }, Weight := 100 }] }]
      = [{ Name := "primary", Timeout := some 30, Match := [{ Port := 8080 }]
           Route := [{ Destination := { Host := "reviews", Subset := "v2" }, Weight := 100 }] }] :=
  (patchHTTPRoute_spec _ _).1.trans (by decide)

/-- C6: for a strategy of policy WaitForWorkloadReady that is the only strategy of the workload,
the desired spec computed by `syncService` is the default spec if some subset name collected by
`getSubsets` (the subset of a route destination of an HTTP, TCP or TLS route of the template, or
of an HTTP mirror destination) is not the name of a subset of the SubsetDefinition, and the
strategy-driven spec if all of them are. -/
theorem desiredSpec_waitForWorkloadReady (sm : Servicemesh) (name : String)
    (subsets : List Subset) (service : Service) (strategy : Strategy)
    (h : strategy.Spec.StrategyPolicy = StrategyPolicy.PolicyWaitForWorkloadReady) :
    (∀ k, k ∈ getSubsets strategy ↔
      (∃ r ∈ strategy.Spec.Template.Spec.Http,
        (∃ d ∈ r.Route, d.Destination.Subset = k) ∨ (∃ m, r.Mirror = some m ∧ m.Subset = k)) ∨
      (∃ r ∈ strategy.Spec.Template.Spec.Tcp, ∃ d ∈ r.Route, d.Destination.Subset = k) ∨
      (∃ r ∈ strategy.Spec.Template.Spec.Tls, ∃ d ∈ r.Route, d.Destination.Subset = k)) ∧
    ((∃ k ∈ getSubsets strategy, k ∉ subsets.map (fun s => s.Name)) →
      desiredSpec sm name subsets service [strategy] =
        (generateDefaultVirtualServiceSpec sm name subsets service).map (fun vs => vs.Spec)) ∧
    ((∀ k ∈ getSubsets strategy, k ∈ subsets.map (fun s => s.Name)) →
      desiredSpec sm name subsets service [strategy] =
        some (generateVirtualServiceSpec sm strategy service).Spec) := by
  refine ⟨mem_getSubsets strategy, ?_, ?_⟩
  · rintro ⟨k, hk, hno⟩
    have : (getSubsets strategy).foldl (fun nonExist k =>
        if !StringSet.Has (subsets.foldl
          (fun setNames subset => StringSet.Insert setNames subset.Name) []) k
        then true else nonExist) false = true := by
      rw [nonExist_fold]
      exact Or.inr ⟨k, hk, fun hmem => hno ((mem_setNames subsets k).mp hmem)⟩
    simp only [desiredSpec, h, this, if_true]
  · intro hall
    have : (getSubsets strategy).foldl (fun nonExist k =>
        if !StringSet.Has (subsets.foldl
          (fun setNames subset => StringSet.Insert setNames subset.Name) []) k
        then true else nonExist) false = false := by
      rw [Bool.eq_false_iff]
      intro hc
      rw [nonExist_fold] at hc
      rcases hc with hc | ⟨k, hk, hno⟩
      · exact Bool.noConfusion hc
      · exact hno ((mem_setNames subsets k).mpr (hall k hk))
    simp only [desiredSpec, h, this]
    simp

/-- C6, readiness gating on a concrete input: a WaitForWorkloadReady strategy whose template
refers to `v2` gives the default spec while the subsets are `v1` only, and the strategy-driven
spec once the subsets include `v2`. -/
theorem desiredSpec_waitForWorkloadReady_witness :
    (sampleStrategy StrategyPolicy.PolicyWaitForWorkloadReady "" v2Template).Spec.StrategyPolicy
        = StrategyPolicy.PolicyWaitForWorkloadReady ∧
      desiredSpec sampleMesh "reviews" [{ Name := "v1" }] (sampleService samplePorts)
          [sampleStrategy StrategyPolicy.PolicyWaitForWorkloadReady "" v2Template] =
        (generateDefaultVirtualServiceSpec sampleMesh "reviews" [{ Name := "v1" }]
          (sampleService samplePorts)).map (fun vs => vs.Spec) ∧
      desiredSpec sampleMesh "reviews" [{ Name := "v1" }, { Name := "v2" }]
          (sampleService samplePorts)
          [sampleStrategy StrategyPolicy.PolicyWaitForWorkloadReady "" v2Template] =
        some (generateVirtualServiceSpec sampleMesh
          (sampleStrategy StrategyPolicy.PolicyWaitForWorkloadReady "" v2Template)
          (sampleService samplePorts)).Spec :=
  ⟨rfl,
    (desiredSpec_waitForWorkloadReady sampleMesh "reviews" [{ Name := "v1" }]
      (sampleService samplePorts)
      (sampleStrategy StrategyPolicy.PolicyWaitForWorkloadReady "" v2Template) rfl).2.1
      ⟨"v2", by decide, by decide⟩,
    (desiredSpec_waitForWorkloadReady sampleMesh "reviews" [{ Name := "v1" }, { Name := "v2" }]
      (sampleService samplePorts)
      (sampleStrategy StrategyPolicy.PolicyWaitForWorkloadReady "" v2Template) rfl).2.2
      (by decide)⟩

/-- C7: in a store in which a qualifying workload (found under the key, requirements met, its
SubsetDefinition present with at least one subset) is selected by two or more strategies for its
app name, `syncService` returns an error, sends no create, update or delete, and leaves the
store as it is, whatever API failures occur. -/
theorem syncService_conflict (sm : Servicemesh) (faults : Faults) (store : Store)
    (key ns name : String) (service : Service) (destinationRule : DestinationRule)
    (hkey : SplitMetaNamespaceKey key = Except.ok (ns, name))
    (hsvc : store.Services.find? (fun o => o.Namespace == ns && o.Name == name) = some service)
    (hq : lacksRequirements sm service = false)
    (hdr : store.DestinationRules.find? (fun o => o.Namespace == ns && o.Name == name) =
      some destinationRule)
    (hsub : destinationRule.Spec.Subsets ≠ [])
    (hmany : 2 ≤ (store.Strategies.filter (fun o => o.Namespace == ns &&
      mapGet o.Labels sm.AppLabel == some (sm.GetComponentName service.toObjectMeta))).length) :
    (∃ err, (syncService sm faults store key).outcome = Outcome.Returned (some err)) ∧
      (syncService sm faults store key).calls = [] ∧
      (syncService sm faults store key).store = store := by
  have hsub' : ¬ destinationRule.Spec.Subsets.length = 0 := fun h =>
    hsub (List.length_eq_zero.mp h)
  have hmany' : 1 < (store.Strategies.filter (fun o => o.Namespace == ns &&
      mapGet o.Labels sm.AppLabel == some (sm.GetComponentName service.toObjectMeta))).length :=
    hmany
  unfold syncService
  simp only [hkey]
  unfold getService
  cases hf1 : faults.GetService with
  | some msg => simp [IsNotFound]
  | none =>
    simp only [hsvc, hq]
    unfold getDestinationRule
    cases hf2 : faults.GetDestinationRule with
    | some msg => simp [IsNotFound]
    | none =>
      simp only [hdr]
      unfold listStrategies
      cases hf3 : faults.ListStrategies with
      | some msg => simp [hsub']
      | none => simp [hsub', hmany']

/-- C7 on a concrete input: in `conflictStore` two strategies select `default/reviews`; the run
sends nothing and leaves the store as it is. -/
theorem syncService_conflict_witness :
    2 ≤ (conflictStore.Strategies.filter (fun o => o.Namespace == "default" &&
        mapGet o.Labels sampleMesh.AppLabel == some "reviews")).length ∧
      (syncService sampleMesh {} conflictStore "default/reviews").calls = [] ∧
      (syncService sampleMesh {} conflictStore "default/reviews").store = conflictStore :=
  ⟨by decide,
    (syncService_conflict sampleMesh {} conflictStore "default/reviews" "default" "reviews"
      (sampleService samplePorts) (sampleDestinationRule ["v1"]) rfl rfl rfl rfl (by decide)
      (by decide)).2⟩

/-- Deletion by name: for a key whose workload is absent from the store, when the lookup and the
two deletes reach the API server, `syncService` returns nil and removes exactly the
RoutingPolicies and strategies whose own namespace and name are those of the key; every other
object is kept, whatever its labels.  A second run returns nil again and leaves the store
unchanged (a delete that reports not-found is not an error). -/
theorem syncService_deletion_cascade (sm : Servicemesh) (faults : Faults) (store : Store)
    (key ns name : String)
    (hkey : SplitMetaNamespaceKey key = Except.ok (ns, name))
    (habsent : ∀ o ∈ store.Services, ¬ (o.Namespace = ns ∧ o.Name = name))
    (hget : faults.GetService = none)
    (hdelvs : faults.DeleteVirtualService = none)
    (hdelst : faults.DeleteStrategy = none) :
    (syncService sm faults store key).outcome = Outcome.Returned none ∧
    (∀ o ∈ (syncService sm faults store key).store.VirtualServices,
      ¬ (o.Namespace = ns ∧ o.Name = name)) ∧
    (∀ o ∈ (syncService sm faults store key).store.Strategies,
      ¬ (o.Namespace = ns ∧ o.Name = name)) ∧
    (syncService sm faults store key).store =
      { store with
        VirtualServices :=
          store.VirtualServices.filter (fun o => !(o.Namespace == ns && o.Name == name))
        Strategies :=
          store.Strategies.filter (fun o => !(o.Namespace == ns && o.Name == name)) } ∧
    (syncService sm faults (syncService sm faults store key).store key).outcome =
      Outcome.Returned none ∧
    (syncService sm faults (syncService sm faults store key).store key).store =
      (syncService sm faults store key).store := by
  have h1 := syncService_of_absent sm faults store key ns name hkey habsent hget
  rw [h1, syncDeleted_eq faults store ns name hdelvs hdelst]
  have h2 := syncService_of_absent sm faults
    { store with
      VirtualServices :=
        store.VirtualServices.filter (fun o => !(o.Namespace == ns && o.Name == name))
      Strategies :=
        store.Strategies.filter (fun o => !(o.Namespace == ns && o.Name == name)) }
    key ns name hkey habsent hget
  simp only [h2, syncDeleted_eq _ _ ns name hdelvs hdelst, List.filter_filter, Bool.and_self]
  refine ⟨trivial, ?_, ?_, trivial, trivial, trivial⟩
  · intro o ho hc
    have := (List.mem_filter.mp ho).2
    simp [hc.1, hc.2] at this
  · intro o ho hc
    have := (List.mem_filter.mp ho).2
    simp [hc.1, hc.2] at this

/-- Deletion by name on a concrete input: in `orphanStore` the workload `default/reviews` is gone
while a RoutingPolicy and a strategy named `reviews` are left; after the run only the
RoutingPolicy of the other workload remains. -/
theorem syncService_deletion_cascade_witness :
    (∀ o ∈ orphanStore.Services, ¬ (o.Namespace = "default" ∧ o.Name = "reviews")) ∧
      (syncService sampleMesh {} orphanStore "default/reviews").outcome =
        Outcome.Returned none ∧
      (syncService sampleMesh {} orphanStore "default/reviews").store =
        { VirtualServices := [{ Name := "ratings", Namespace := "default", ResourceVersion := "4"
                                Spec := { Hosts := ["ratings"] } }] } :=
  ⟨by decide,
    (syncService_deletion_cascade sampleMesh {} orphanStore "default/reviews" "default"
      "reviews" rfl (by decide) rfl rfl rfl).1,
    (syncService_deletion_cascade sampleMesh {} orphanStore "default/reviews" "default"
      "reviews" rfl (by decide) rfl rfl rfl).2.2.2.1.trans (by decide)⟩

/-- C8 (the code departs from the claim): on `boundStore` the run of `syncService` on
`default/reviews` finds the strategy `canary-1` by its label `app` and creates the RoutingPolicy
from its template.  When the workload has disappeared, the run on the same key returns nil and
deletes the RoutingPolicy, but the strategy `canary-1` of that workload stays in the store: the
delete asks for a strategy whose name is `reviews`. -/
theorem syncService_leaves_bound_strategy :
    (syncService sampleMesh {} boundStore "default/reviews").outcome = Outcome.Returned none ∧
      (syncService sampleMesh {} boundStore "default/reviews").store.VirtualServices.map
        (fun o => (o.Name, o.Spec.Http.length)) = [("reviews", 2)] ∧
      (syncService sampleMesh {}
        { (syncService sampleMesh {} boundStore "default/reviews").store with Services := [] }
        "default/reviews").outcome = Outcome.Returned none ∧
      (syncService sampleMesh {}
        { (syncService sampleMesh {} boundStore "default/reviews").store with Services := [] }
        "default/reviews").calls =
        [Call.DeleteVirtualService "default" "reviews",
         Call.DeleteStrategy "default" "reviews"] ∧
      (syncService sampleMesh {}
        { (syncService sampleMesh {} boundStore "default/reviews").store with Services := [] }
        "default/reviews").store.VirtualServices = [] ∧
      (syncService sampleMesh {}
        { (syncService sampleMesh {} boundStore "default/reviews").store with Services := [] }
        "default/reviews").store.Strategies = [boundStrategy] := by
  decide

/-- C9 (amended): for a key the rate limiter holds no requeue count for, when every run of
`syncService` fails, `handleErr` re-enqueues the key with rate limiting after each of the first
15 failed attempts and reports nothing; at the 16th failed attempt, when `NumRequeues` has
reached `maxRetries`, it forgets the key instead of re-enqueuing it and reports the error, once. -/
theorem handleErr_bounded_retry (err : Error) (key : String) (v : Worker)
    (h : v.queue.NumRequeues key = 0) :
    (∀ n, n ≤ 15 →
      (failedAttempts err key n v).queue.requeued = v.queue.requeued ++ List.replicate n key ∧
      (failedAttempts err key n v).reported = v.reported ∧
      (failedAttempts err key n v).queue.NumRequeues key = n) ∧
    (failedAttempts err key 16 v).queue.requeued = v.queue.requeued ++ List.replicate 15 key ∧
    (failedAttempts err key 16 v).reported = v.reported ++ [err] ∧
    (failedAttempts err key 16 v).queue.NumRequeues key = 0 := by
  refine ⟨fun n hn => failedAttempts_le err key v h n hn, ?_⟩
  obtain ⟨h1, h2, h3⟩ := failedAttempts_le err key v h 15 (Nat.le_refl _)
  have hge : ¬ (failedAttempts err key 15 v).queue.NumRequeues key < maxRetries := by
    rw [h3]; exact Nat.lt_irrefl _
  have hstep : failedAttempts err key 16 v =
      handleErr (some err) key (failedAttempts err key 15 v) := by
    rw [failedAttempts]
  rw [hstep]
  simp only [WorkQueue.NumRequeues] at hge
  simp only [handleErr, WorkQueue.NumRequeues, hge, if_false, WorkQueue.Forget, h1, h2,
    if_true, and_self]

/-- C9 on a concrete input: starting from a fresh queue, the 16th failed attempt on
`default/reviews` reports the error, and it is the only report. -/
theorem handleErr_bounded_retry_witness :
    (({} : Worker).queue.NumRequeues "default/reviews" = 0) ∧
      (failedAttempts (Error.Other "sync failed") "default/reviews" 16 {}).reported =
        [Error.Other "sync failed"] :=
  ⟨rfl, by
    simpa using
      (handleErr_bounded_retry (Error.Other "sync failed") "default/reviews" {} rfl).2.2.1⟩

/-- C9, counterexample to the claim as stated: at the 15th failed attempt the key is not
dropped: all 15 failed attempts have re-enqueued it, nothing is reported, and the rate limiter
still tracks it. -/
theorem handleErr_requeues_fifteenth_failure :
    (failedAttempts (Error.Other "sync failed") "default/reviews" 15 {}).queue.requeued =
        List.replicate 15 "default/reviews" ∧
      (failedAttempts (Error.Other "sync failed") "default/reviews" 15 {}).reported = [] ∧
      (failedAttempts (Error.Other "sync failed") "default/reviews" 15 {}).queue.NumRequeues
        "default/reviews" = 15 := by
  decide

/-- C10 (amended): no run of `syncService` sends a create or update of a RoutingPolicy whose
HTTP, TCP and TLS route lists are all empty; and a run that reaches the synthesis step (reads
succeed, the workload qualifies, subsets exist, at most one strategy) with a desired spec whose
three route lists are empty sends no request at all and leaves the store as it is: it returns
nil if the RoutingPolicy exists already (non-empty ResourceVersion) with that spec and the
labels of the workload (the no-op short circuit comes first), and the validation error
otherwise. -/
theorem syncService_empty_spec :
    (∀ (sm : Servicemesh) (faults : Faults) (store : Store) (key n : String)
        (vs : VirtualService),
      (Call.CreateVirtualService n vs ∈ (syncService sm faults store key).calls ∨
        Call.UpdateVirtualService n vs ∈ (syncService sm faults store key).calls) →
      (vs.Spec.Http ≠ [] ∨ vs.Spec.Tcp ≠ [] ∨ vs.Spec.Tls ≠ [])) ∧
    (∀ (sm : Servicemesh) (faults : Faults) (store : Store) (key ns name : String)
        (service : Service) (destinationRule : DestinationRule) (strategies : List Strategy)
        (current : VirtualService) (spec : VirtualServiceSpec),
      SplitMetaNamespaceKey key = Except.ok (ns, name) →
      getService faults store ns name = Except.ok service →
      lacksRequirements sm service = false →
      getDestinationRule faults store ns name = Except.ok destinationRule →
      destinationRule.Spec.Subsets ≠ [] →
      listStrategies sm faults store ns (sm.GetComponentName service.toObjectMeta) =
        Except.ok strategies →
      strategies.length ≤ 1 →
      currentVirtualService sm faults store ns (sm.GetComponentName service.toObjectMeta)
        service = Except.ok current →
      desiredSpec sm name destinationRule.Spec.Subsets service strategies = some spec →
      (spec.Http = [] ∧ spec.Tcp = [] ∧ spec.Tls = []) →
      (syncService sm faults store key).calls = [] ∧
      (syncService sm faults store key).store = store ∧
      (syncService sm faults store key).outcome =
        (if current.ResourceVersion ≠ "" ∧ spec = current.Spec ∧
            service.Labels = current.Labels
         then Outcome.Returned none
         else Outcome.Returned (some (Error.Other
           ("service " ++ ns ++ "/" ++ name ++ " doesn't have a valid port spec"))))) := by
  refine ⟨fun sm faults store key n vs h => syncService_writes_routes sm faults store key n vs h,
    ?_⟩
  intro sm faults store key ns name service destinationRule strategies current spec
    hkey hsvc hq hdr hsub hlist hone hcur hspec hempty
  rw [syncService_eq_applySpec sm faults store key ns name service destinationRule strategies
    current spec hkey hsvc hq hdr hsub hlist hone hcur hspec]
  obtain ⟨h1, h2, h3⟩ := hempty
  have hpatch : ({ spec with Http := patchHTTPRoute current.Spec.Http spec.Http } :
      VirtualServiceSpec) = spec := by
    rw [h1, patchHTTPRoute_nil]
    cases spec
    simp_all
  unfold applySpec
  simp only [hpatch]
  by_cases hrv : current.ResourceVersion = ""
  · simp [hrv, h1, h2, h3, patchHTTPRoute_nil]
  · have hlen : ¬ current.ResourceVersion.length = 0 := fun h =>
      hrv ((string_length_eq_zero _).mp h)
    by_cases hs : spec = current.Spec
    · by_cases hl : service.Labels = current.Labels
      · simp [hrv, hlen, hs, hl]
      · simp [hrv, hlen, hl, ← hs, h1, h2, h3, patchHTTPRoute_nil]
    · simp [hrv, hlen, hs, h1, h2, h3, patchHTTPRoute_nil]

/-- C10 on a concrete input: in `udpStore` the workload has only a UDP port and no RoutingPolicy
exists; the desired spec has no route, the run sends nothing and returns the validation error. -/
theorem syncService_empty_spec_witness :
    desiredSpec sampleMesh "reviews" (sampleDestinationRule ["v1"]).Spec.Subsets udpService [] =
        some { Hosts := ["reviews"] } ∧
      (syncService sampleMesh {} udpStore "default/reviews").calls = [] ∧
      (syncService sampleMesh {} udpStore "default/reviews").outcome =
        Outcome.Returned (some (Error.Other
          "service default/reviews doesn't have a valid port spec")) :=
  ⟨by decide,
    (syncService_empty_spec.2 sampleMesh {} udpStore "default/reviews" "default" "reviews"
      udpService (sampleDestinationRule ["v1"]) []
      { Name := "reviews", Namespace := "default", Labels := sampleLabels }
      { Hosts := ["reviews"] } rfl rfl rfl rfl (by decide) rfl (by decide) rfl (by decide)
      (by decide)).1,
    (syncService_empty_spec.2 sampleMesh {} udpStore "default/reviews" "default" "reviews"
      udpService (sampleDestinationRule ["v1"]) []
      { Name := "reviews", Namespace := "default", Labels := sampleLabels }
      { Hosts := ["reviews"] } rfl rfl rfl rfl (by decide) rfl (by decide) rfl (by decide)
      (by decide)).2.2.trans (by decide)⟩

/-- C10, counterexample to the claim as stated: in `emptyPolicyStore` the desired spec has no
route, yet the run returns nil, not a validation error, and the RoutingPolicy without routes
stays in the store. -/
theorem syncService_accepts_empty_policy :
    desiredSpec sampleMesh "reviews" (sampleDestinationRule ["v1"]).Spec.Subsets udpService [] =
        some { Hosts := ["reviews"] } ∧
      (syncService sampleMesh {} emptyPolicyStore "default/reviews").outcome =
        Outcome.Returned none ∧
      (syncService sampleMesh {} emptyPolicyStore "default/reviews").store = emptyPolicyStore := by
  decide

/-! ## Further auxiliary facts -/

theorem lacksRequirements_of (sm : Servicemesh) (service : Service)
    (h : service.Spec.Ports = [] ∨ sm.IsServicemeshEnabled service.Annotations = false ∨
      sm.IsApplicationComponent service.Labels = false ∨
      service.Labels.length < sm.ApplicationLabels.length) :
    lacksRequirements sm service = true := by
  unfold lacksRequirements
  rcases h with h | h | h | h
  · simp [h]
  · simp [h]
  · simp [h]
  · simp [h]

theorem syncService_of_lacksRequirements (sm : Servicemesh) (faults : Faults) (store : Store)
    (key ns name : String) (service : Service)
    (hkey : SplitMetaNamespaceKey key = Except.ok (ns, name))
    (hsvc : getService faults store ns name = Except.ok service)
    (hun : lacksRequirements sm service = true) :
    syncService sm faults store key = { outcome := Outcome.Returned none, store := store } := by
  unfold syncService
  simp [hkey, hsvc, hun]

theorem getService_cases (faults : Faults) (store : Store) (ns name : String)
    (service : Service)
    (hsvc : store.Services.find? (fun o => o.Namespace == ns && o.Name == name) = some service) :
    getService faults store ns name = Except.ok service ∨
      ∃ msg, getService faults store ns name = Except.error (Error.Other msg) := by
  unfold getService
  cases faults.GetService with
  | some msg => exact Or.inr ⟨msg, rfl⟩
  | none => simp [hsvc]

theorem currentVirtualService_name (sm : Servicemesh) (faults : Faults) (store : Store)
    (ns appName : String) (service : Service) (current : VirtualService)
    (hcur : currentVirtualService sm faults store ns appName service = Except.ok current) :
    current.Name = appName ∧ current.Namespace = ns := by
  unfold currentVirtualService getVirtualService at hcur
  cases hf : faults.GetVirtualService with
  | some msg => simp [hf, IsNotFound] at hcur
  | none =>
    simp only [hf] at hcur
    cases hfind : store.VirtualServices.find? (fun o => o.Namespace == ns && o.Name == appName)
      with
    | some o =>
      simp only [hfind] at hcur
      injection hcur with hcur
      subst hcur
      have := List.find?_some hfind
      simp at this
      exact ⟨this.2, this.1⟩
    | none =>
      simp only [hfind, IsNotFound, if_true] at hcur
      injection hcur with hcur
      subst hcur
      exact ⟨rfl, rfl⟩

theorem applySpec_calls_name (faults : Faults) (store : Store) (ns name : String)
    (service : Service) (current : VirtualService) (spec : VirtualServiceSpec)
    (n : String) (vs : VirtualService)
    (h : Call.CreateVirtualService n vs ∈
        (applySpec faults store ns name service current spec).calls ∨
      Call.UpdateVirtualService n vs ∈
        (applySpec faults store ns name service current spec).calls) :
    n = ns ∧ vs.Name = current.Name ∧ vs.Namespace = current.Namespace := by
  unfold applySpec at h
  simp only at h
  split at h
  · simp at h
  · split at h
    · simp at h
    · split at h
      · split at h <;> simp at h <;> (obtain ⟨rfl, rfl⟩ := h; exact ⟨rfl, rfl, rfl⟩)
      · split at h <;> simp at h <;> (obtain ⟨rfl, rfl⟩ := h; exact ⟨rfl, rfl, rfl⟩)

/-- Every RoutingPolicy that a run of `syncService` sends in a create or update lies in the
namespace of the key and carries the component name of the workload, `GetComponentName`, as its
name; the name of the key is not consulted. -/
theorem syncService_writes_app_name (sm : Servicemesh) (faults : Faults) (store : Store)
    (key ns name : String) (service : Service)
    (hkey : SplitMetaNamespaceKey key = Except.ok (ns, name))
    (hsvc : getService faults store ns name = Except.ok service)
    (n : String) (vs : VirtualService)
    (h : Call.CreateVirtualService n vs ∈ (syncService sm faults store key).calls ∨
      Call.UpdateVirtualService n vs ∈ (syncService sm faults store key).calls) :
    n = ns ∧ vs.Namespace = ns ∧ vs.Name = sm.GetComponentName service.toObjectMeta := by
  unfold syncService at h
  simp only [hkey, hsvc] at h
  repeat' split at h
  all_goals first
    | (simp at h)
    | (obtain ⟨h1, h2, h3⟩ := applySpec_calls_name _ _ _ _ _ _ _ _ _ h
       obtain ⟨h4, h5⟩ := currentVirtualService_name _ _ _ _ _ _ _ (by assumption)
       exact ⟨h1, h3.trans h5, h2.trans h4⟩)

/-- In governor mode with a template that has an HTTP route, the HTTP routes are one route per
HTTP-capable port, and all of them show the one shared destination, hence the same port. -/
theorem governor_http_routes (sm : Servicemesh) (strategy : Strategy) (service : Service)
    (hgov : strategy.Spec.GovernorVersion ≠ "")
    (htpl : strategy.Spec.Template.Spec.Http ≠ []) :
    ∃ port : Option PortSelector,
      (generateVirtualServiceSpec sm strategy service).Spec.Http =
        (service.Spec.Ports.filter (fun p => sm.SupportHttpProtocol p.Name)).map (fun p =>
          { Match := [{ Port := uint32 p.Port }]
            Route := [{ Destination := { Host := service.Name
                                         Subset := strategy.Spec.GovernorVersion
                                         Port := port }
                        Weight := 100 }] }) := by
  have hlen : ¬ strategy.Spec.GovernorVersion.length = 0 := fun h0 =>
    hgov ((string_length_eq_zero _).mp h0)
  unfold generateVirtualServiceSpec
  simp only [hlen, if_false]
  rw [governorForPort_fold]
  refine ⟨(fillSharedDestination sm service
      { Host := service.Name, Subset := strategy.Spec.GovernorVersion }
      ((service.Spec.Ports.filter (fun p => sm.SupportHttpProtocol p.Name)).map (fun p =>
         { Route := [{ Destination := { Host := service.Name
                                        Subset := strategy.Spec.GovernorVersion }
                       Weight := 100 }]
           Match := [{ Port := uint32 p.Port }] }))).Port, ?_⟩
  simp only [FillDestinationPortShared, FillDestinationPort, List.nil_append, htpl, if_false,
    List.map_map]
  apply List.map_congr_left
  intro p _
  simp only [Function.comp, List.map_cons, List.map_nil]
  have e := fillSharedDestination_host sm service
    (List.map (fun p =>
      ({ Route := [{ Destination := { Host := service.Name
                                      Subset := strategy.Spec.GovernorVersion }
                     Weight := 100 }]
         Match := [{ Port := uint32 p.Port }] } : HTTPRoute))
      (List.filter (fun p => sm.SupportHttpProtocol p.Name) service.Spec.Ports))
    { Host := service.Name, Subset := strategy.Spec.GovernorVersion }
  revert e
  generalize fillSharedDestination sm service _ _ = x
  intro e
  cases x
  simp only at e
  simp [e.1, e.2]

/-- Either branch of `generateVirtualServiceSpec` leaves the TLS route list empty. -/
theorem generateVirtualServiceSpec_tls (sm : Servicemesh) (strategy : Strategy)
    (service : Service) : (generateVirtualServiceSpec sm strategy service).Spec.Tls = [] := by
  by_cases h : strategy.Spec.GovernorVersion = ""
  · rw [generateVirtualServiceSpec_no_governor sm strategy service h]
  · have hlen : ¬ strategy.Spec.GovernorVersion.length = 0 := fun h0 =>
      h ((string_length_eq_zero _).mp h0)
    unfold generateVirtualServiceSpec
    simp only [hlen, if_false]
    rw [governorForPort_fold]
    simp [FillDestinationPortShared, FillDestinationPort]

/-- The loop of `generateDefaultVirtualServiceSpec` never touches the TLS route list. -/
theorem defaultForPort_fold_tls (sm : Servicemesh) (name : String) (subsets : List Subset)
    (ports : List ServicePort) (vs vs' : VirtualService)
    (h : ports.foldlM (defaultForPort sm name subsets) vs = some vs') :
    vs'.Spec.Tls = vs.Spec.Tls := by
  induction ports generalizing vs with
  | nil =>
    simp at h
    rw [← h]
  | cons p ps ih =>
    rw [List.foldlM_cons] at h
    cases hstep : defaultForPort sm name subsets vs p with
    | none => simp [hstep] at h
    | some vs1 =>
      simp only [hstep, Option.some_bind] at h
      rw [ih vs1 h]
      unfold defaultForPort at hstep
      split at hstep
      · split at hstep
        · simp at hstep
        · split at hstep
          · simp at hstep; rw [← hstep]
          · simp at hstep; rw [← hstep]
      · simp at hstep; rw [← hstep]

theorem generateDefaultVirtualServiceSpec_tls (sm : Servicemesh) (name : String)
    (subsets : List Subset) (service : Service) (vs : VirtualService)
    (h : generateDefaultVirtualServiceSpec sm name subsets service = some vs) :
    vs.Spec.Tls = [] := by
  unfold generateDefaultVirtualServiceSpec at h
  exact defaultForPort_fold_tls sm name subsets _ _ vs h

theorem desiredSpec_tls (sm : Servicemesh) (name : String) (subsets : List Subset)
    (service : Service) (strategies : List Strategy) (spec : VirtualServiceSpec)
    (h : desiredSpec sm name subsets service strategies = some spec) : spec.Tls = [] := by
  have hdef : ∀ spec, (generateDefaultVirtualServiceSpec sm name subsets service).map
      (fun vs => vs.Spec) = some spec → spec.Tls = [] := by
    intro spec hs
    cases hg : generateDefaultVirtualServiceSpec sm name subsets service with
    | none => simp [hg] at hs
    | some vs =>
      simp [hg] at hs
      rw [← hs]
      exact generateDefaultVirtualServiceSpec_tls sm name subsets service vs hg
  have hgen : ∀ strategy spec,
      some (generateVirtualServiceSpec sm strategy service).Spec = some spec →
      spec.Tls = [] := by
    intro strategy spec hs
    simp at hs
    rw [← hs]
    exact generateVirtualServiceSpec_tls sm strategy service
  unfold desiredSpec at h
  split at h
  · split at h
    · exact hdef spec h
    · simp only at h
      split at h
      · exact hdef spec h
      · exact hgen _ spec h
    · exact hgen _ spec h
    · exact hgen _ spec h
  · exact hdef spec h

/-! ## The claims, continued -/

/-- C11 (the code departs from the claim): on `renamedStore`, where the workload is named
`reviews-svc` and its label `app` is `reviews`, the run of `syncService` on the key
`default/reviews-svc` creates the RoutingPolicy under the name `reviews`, not under the name of
the workload.  When the workload has disappeared, the run on the same key asks to delete the
RoutingPolicy `reviews-svc`, and the RoutingPolicy that was created stays in the store. -/
theorem syncService_creates_under_app_name :
    (syncService sampleMesh {} renamedStore "default/reviews-svc").outcome =
        Outcome.Returned none ∧
      (syncService sampleMesh {} renamedStore "default/reviews-svc").calls =
        [Call.CreateVirtualService "default" renamedPolicy] ∧
      (syncService sampleMesh {}
        { (syncService sampleMesh {} renamedStore "default/reviews-svc").store with
          Services := [] }
        "default/reviews-svc").calls =
        [Call.DeleteVirtualService "default" "reviews-svc",
         Call.DeleteStrategy "default" "reviews-svc"] ∧
      (syncService sampleMesh {}
        { (syncService sampleMesh {} renamedStore "default/reviews-svc").store with
          Services := [] }
        "default/reviews-svc").store.VirtualServices =
        [{ renamedPolicy with ResourceVersion := "1" }] := by
  decide

/-- C12 (amended): for a workload that exists but has no port, lacks the mesh-enabled marker,
or has insufficient application labels, `syncService` sends no request: no RoutingPolicy is
created, and the RoutingPolicies and strategies of the store, an existing RoutingPolicy of the
workload included, are left as they are, whatever API failures occur. -/
theorem syncService_unqualified_keeps_policy (sm : Servicemesh) (faults : Faults)
    (store : Store) (key ns name : String) (service : Service)
    (hkey : SplitMetaNamespaceKey key = Except.ok (ns, name))
    (hsvc : store.Services.find? (fun o => o.Namespace == ns && o.Name == name) = some service)
    (hun : service.Spec.Ports = [] ∨ sm.IsServicemeshEnabled service.Annotations = false ∨
      sm.IsApplicationComponent service.Labels = false ∨
      service.Labels.length < sm.ApplicationLabels.length) :
    (syncService sm faults store key).calls = [] ∧
      (syncService sm faults store key).store.VirtualServices = store.VirtualServices ∧
      (syncService sm faults store key).store.Strategies = store.Strategies := by
  rcases getService_cases faults store ns name service hsvc with h | ⟨msg, h⟩
  · rw [syncService_of_lacksRequirements sm faults store key ns name service hkey h
      (lacksRequirements_of sm service hun)]
    exact ⟨rfl, rfl, rfl⟩
  · unfold syncService
    simp [hkey, h, IsNotFound]

/-- C12 on a concrete input: in `unmarkedStore` the workload lacks the mesh-enabled marker; the
run sends nothing and the existing RoutingPolicy stays. -/
theorem syncService_unqualified_keeps_policy_witness :
    sampleMesh.IsServicemeshEnabled unmarkedService.Annotations = false ∧
      (syncService sampleMesh {} unmarkedStore "default/reviews").calls = [] ∧
      (syncService sampleMesh {} unmarkedStore "default/reviews").store.VirtualServices =
        unmarkedStore.VirtualServices :=
  ⟨by decide,
    (syncService_unqualified_keeps_policy sampleMesh {} unmarkedStore "default/reviews"
      "default" "reviews" unmarkedService rfl rfl (Or.inr (Or.inl (by decide)))).1,
    (syncService_unqualified_keeps_policy sampleMesh {} unmarkedStore "default/reviews"
      "default" "reviews" unmarkedService rfl rfl (Or.inr (Or.inl (by decide)))).2.1⟩

/-- C12, counterexample to the claim as stated: in `portlessStore` the workload has no port and
a RoutingPolicy and a strategy of its name exist; the run returns nil and both are still there. -/
theorem syncService_keeps_policy_of_portless_workload :
    lacksRequirements sampleMesh portlessService = true ∧
      (syncService sampleMesh {} portlessStore "default/reviews").outcome =
        Outcome.Returned none ∧
      (syncService sampleMesh {} portlessStore "default/reviews").store.VirtualServices =
        portlessStore.VirtualServices ∧
      (syncService sampleMesh {} portlessStore
        "default/reviews").store.VirtualServices.length = 1 ∧
      (syncService sampleMesh {} portlessStore "default/reviews").store.Strategies.length = 1 := by
  decide

/-- C13: for a workload that exists but lacks the required labels or annotations or has no
port, `syncService` returns nil, sends no create, update or delete, records no event, and
leaves the whole store unchanged. -/
theorem syncService_unqualified_noop (sm : Servicemesh) (faults : Faults) (store : Store)
    (key ns name : String) (service : Service)
    (hkey : SplitMetaNamespaceKey key = Except.ok (ns, name))
    (hsvc : getService faults store ns name = Except.ok service)
    (hun : lacksRequirements sm service = true) :
    (syncService sm faults store key).outcome = Outcome.Returned none ∧
      (syncService sm faults store key).calls = [] ∧
      (syncService sm faults store key).events = [] ∧
      (syncService sm faults store key).store = store := by
  rw [syncService_of_lacksRequirements sm faults store key ns name service hkey hsvc hun]
  exact ⟨rfl, rfl, rfl, rfl⟩

/-- C13 on a concrete input: in `portlessStore` the workload has no port; the run returns nil
and the store, with its RoutingPolicy, is unchanged. -/
theorem syncService_unqualified_noop_witness :
    lacksRequirements sampleMesh portlessService = true ∧
      (syncService sampleMesh {} portlessStore "default/reviews").outcome =
        Outcome.Returned none ∧
      (syncService sampleMesh {} portlessStore "default/reviews").calls = [] ∧
      (syncService sampleMesh {} portlessStore "default/reviews").store = portlessStore :=
  ⟨by decide,
    (syncService_unqualified_noop sampleMesh {} portlessStore "default/reviews" "default"
      "reviews" portlessService rfl rfl (by decide)).1,
    (syncService_unqualified_noop sampleMesh {} portlessStore "default/reviews" "default"
      "reviews" portlessService rfl rfl (by decide)).2.1,
    (syncService_unqualified_noop sampleMesh {} portlessStore "default/reviews" "default"
      "reviews" portlessService rfl rfl (by decide)).2.2.2⟩

/-- C14: for a qualifying workload whose SubsetDefinition (same namespace and name) does not
exist, `syncService` returns an error (the not-found message, or the failure of the lookup),
sends no request and leaves the store as it is, whatever strategies and RoutingPolicy exist;
when the SubsetDefinition exists with an empty subset list, it returns nil and likewise sends
nothing. -/
theorem syncService_missing_subsets (sm : Servicemesh) (faults : Faults) (store : Store)
    (key ns name : String) (service : Service)
    (hkey : SplitMetaNamespaceKey key = Except.ok (ns, name))
    (hsvc : getService faults store ns name = Except.ok service)
    (hq : lacksRequirements sm service = false) :
    ((∀ o ∈ store.DestinationRules, ¬ (o.Namespace = ns ∧ o.Name = name)) →
      (syncService sm faults store key).outcome =
          Outcome.Returned (some (Error.Other
            (match faults.GetDestinationRule with
             | some msg => msg
             | none => "destination rule for service " ++ ns ++ "/" ++ name ++ " not found"))) ∧
        (syncService sm faults store key).calls = [] ∧
        (syncService sm faults store key).store = store) ∧
    (∀ destinationRule,
      getDestinationRule faults store ns name = Except.ok destinationRule →
      destinationRule.Spec.Subsets = [] →
      (syncService sm faults store key).outcome = Outcome.Returned none ∧
        (syncService sm faults store key).calls = [] ∧
        (syncService sm faults store key).store = store) := by
  constructor
  · intro habsent
    have hfind : store.DestinationRules.find?
        (fun o => o.Namespace == ns && o.Name == name) = none := by
      apply List.find?_eq_none.mpr
      intro o ho
      simpa using habsent o ho
    unfold syncService
    simp only [hkey, hsvc, hq]
    unfold getDestinationRule
    cases faults.GetDestinationRule with
    | some msg => simp [IsNotFound]
    | none => simp [hfind, IsNotFound]
  · intro destinationRule hdr hempty
    unfold syncService
    simp [hkey, hsvc, hq, hdr, hempty]

/-- C14 on concrete inputs: in `noSubsetsStore` the SubsetDefinition is missing and the run
returns the not-found error without sending anything; in `emptySubsetsStore` it exists without
subsets and the run returns nil without sending anything. -/
theorem syncService_missing_subsets_witness :
    (syncService sampleMesh {} noSubsetsStore "default/reviews").outcome =
        Outcome.Returned (some (Error.Other
          "destination rule for service default/reviews not found")) ∧
      (syncService sampleMesh {} noSubsetsStore "default/reviews").calls = [] ∧
      (syncService sampleMesh {} emptySubsetsStore "default/reviews").outcome =
        Outcome.Returned none ∧
      (syncService sampleMesh {} emptySubsetsStore "default/reviews").calls = [] :=
  ⟨((syncService_missing_subsets sampleMesh {} noSubsetsStore "default/reviews" "default"
      "reviews" (sampleService samplePorts) rfl rfl (by decide)).1 (by decide)).1.trans
      (by decide),
    ((syncService_missing_subsets sampleMesh {} noSubsetsStore "default/reviews" "default"
      "reviews" (sampleService samplePorts) rfl rfl (by decide)).1 (by decide)).2.1,
    ((syncService_missing_subsets sampleMesh {} emptySubsetsStore "default/reviews" "default"
      "reviews" (sampleService samplePorts) rfl rfl (by decide)).2
      (sampleDestinationRule []) rfl rfl).1,
    ((syncService_missing_subsets sampleMesh {} emptySubsetsStore "default/reviews" "default"
      "reviews" (sampleService samplePorts) rfl rfl (by decide)).2
      (sampleDestinationRule []) rfl rfl).2.1⟩

/-- C15 (the code departs from the claim): in governor mode, with a template that has an HTTP
route and two HTTP-capable ports of different numbers, some HTTP route returned by
`generateVirtualServiceSpec` has a destination whose port selector is not the port number of
its match clause, whatever number the backfill writes: all the HTTP routes hold the one
`governorDestinationWeight`. -/
theorem generateVirtualServiceSpec_governor_shared_port (sm : Servicemesh)
    (strategy : Strategy) (service : Service) (p q : ServicePort)
    (hgov : strategy.Spec.GovernorVersion ≠ "")
    (htpl : strategy.Spec.Template.Spec.Http ≠ [])
    (hp : p ∈ service.Spec.Ports) (hq : q ∈ service.Spec.Ports)
    (hph : sm.SupportHttpProtocol p.Name = true) (hqh : sm.SupportHttpProtocol q.Name = true)
    (hne : uint32 p.Port ≠ uint32 q.Port) :
    ∃ r ∈ (generateVirtualServiceSpec sm strategy service).Spec.Http,
      ∃ m ∈ r.Match, ∃ d ∈ r.Route, d.Destination.Port ≠ some { Number := m.Port } := by
  obtain ⟨port, hhttp⟩ := governor_http_routes sm strategy service hgov htpl
  rw [hhttp]
  by_cases hport : port = some { Number := uint32 p.Port }
  · refine ⟨_, List.mem_map.mpr ⟨q, List.mem_filter.mpr ⟨hq, hqh⟩, rfl⟩, _,
      List.mem_singleton.mpr rfl, _, List.mem_singleton.mpr rfl, ?_⟩
    simp only [hport]
    intro hc
    injection hc with hc
    injection hc with hc
    exact hne hc
  · exact ⟨_, List.mem_map.mpr ⟨p, List.mem_filter.mpr ⟨hp, hph⟩, rfl⟩, _,
      List.mem_singleton.mpr rfl, _, List.mem_singleton.mpr rfl, hport⟩

/-- C15 on a concrete input: pinned subset `canary`, ports `http:8080` and `http2:8081`: the
route that matches 8081 sends its traffic to port 8080. -/
theorem generateVirtualServiceSpec_governor_shared_port_witness :
    (generateVirtualServiceSpec sampleMesh
        (sampleStrategy StrategyPolicy.PolicyImmediately "canary" twoRouteTemplate)
        (sampleService twoHttpPorts)).Spec.Http =
      [{ Match := [{ Port := 8080 }]
         Route := [{ Destination := { Host := "reviews", Subset := "canary"
                                      Port := some { Number := 8080 } }
                     Weight := 100 }] },
       { Match := [{ Port := 8081 }]
         Route := [{ Destination := { Host := "reviews", Subset := "canary"
                                      Port := some { Number := 8080 } }
                     Weight := 100 }] }] ∧
    ∃ r ∈ (generateVirtualServiceSpec sampleMesh
        (sampleStrategy StrategyPolicy.PolicyImmediately "canary" twoRouteTemplate)
        (sampleService twoHttpPorts)).Spec.Http,
      ∃ m ∈ r.Match, ∃ d ∈ r.Route, d.Destination.Port ≠ some { Number := m.Port } :=
  ⟨by decide,
    generateVirtualServiceSpec_governor_shared_port sampleMesh
      (sampleStrategy StrategyPolicy.PolicyImmediately "canary" twoRouteTemplate)
      (sampleService twoHttpPorts) { Name := "http", Port := 8080 }
      { Name := "http2", Port := 8081 } (by decide) (by decide) (by decide) (by decide)
      rfl rfl (by decide)⟩

/-- C16 (the code departs from the claim): for a key whose workload is not found, when the
delete of the RoutingPolicy fails with an error other than not-found, or succeeds and the
delete of the strategy fails so, `syncService` does not return the error: the error branch
evaluates `service.Name` on the nil service and the run aborts. -/
theorem syncService_delete_failure_aborts (sm : Servicemesh) (faults : Faults) (store : Store)
    (key ns name : String)
    (hkey : SplitMetaNamespaceKey key = Except.ok (ns, name))
    (habsent : ∀ o ∈ store.Services, ¬ (o.Namespace = ns ∧ o.Name = name))
    (hget : faults.GetService = none) :
    (∀ msg, faults.DeleteVirtualService = some msg →
      (syncService sm faults store key).outcome =
          Outcome.Panicked "nil pointer dereference: service.Name" ∧
        (syncService sm faults store key).calls = [Call.DeleteVirtualService ns name] ∧
        (syncService sm faults store key).store = store) ∧
    (∀ msg, faults.DeleteVirtualService = none → faults.DeleteStrategy = some msg →
      (syncService sm faults store key).outcome =
          Outcome.Panicked "nil pointer dereference: service.Name" ∧
        (syncService sm faults store key).calls =
          [Call.DeleteVirtualService ns name, Call.DeleteStrategy ns name] ∧
        (syncService sm faults store key).store.Strategies = store.Strategies) := by
  rw [syncService_of_absent sm faults store key ns name hkey habsent hget]
  constructor
  · intro msg hmsg
    unfold syncDeleted clientDeleteVirtualService
    simp [hmsg, IsNotFound]
  · intro msg hvs hmsg
    unfold syncDeleted
    rw [clientDeleteVirtualService_eq faults store ns name hvs]
    simp only
    unfold clientDeleteStrategy
    simp only [hmsg]
    cases store.VirtualServices.any (fun o => o.Namespace == ns && o.Name == name) <;>
      simp [IsNotFound]

/-- C16 on a concrete input: in `orphanStore` the workload is absent; when the server refuses
the delete of the RoutingPolicy, the run aborts after that one request and the RoutingPolicy
stays. -/
theorem syncService_delete_failure_aborts_witness :
    (∀ o ∈ orphanStore.Services, ¬ (o.Namespace = "default" ∧ o.Name = "reviews")) ∧
      (syncService sampleMesh deleteRefused orphanStore "default/reviews").outcome =
        Outcome.Panicked "nil pointer dereference: service.Name" ∧
      (syncService sampleMesh deleteRefused orphanStore "default/reviews").store =
        orphanStore :=
  ⟨by decide,
    ((syncService_delete_failure_aborts sampleMesh deleteRefused orphanStore "default/reviews"
      "default" "reviews" rfl (by decide) rfl).1 "connection refused" rfl).1,
    ((syncService_delete_failure_aborts sampleMesh deleteRefused orphanStore "default/reviews"
      "default" "reviews" rfl (by decide) rfl).1 "connection refused" rfl).2.2⟩

/-- C17: the specs returned by `generateVirtualServiceSpec` and (whenever it returns, which
it does for a non-empty subset list) by `generateDefaultVirtualServiceSpec` have an empty TLS
route list, although `getSubsets` counts the subsets of the TLS routes of the template; hence
a desired spec with a route has an HTTP or a TCP route. -/
theorem synthesized_specs_have_no_tls (sm : Servicemesh) :
    (∀ strategy service, (generateVirtualServiceSpec sm strategy service).Spec.Tls = []) ∧
    (∀ name subsets service vs,
      generateDefaultVirtualServiceSpec sm name subsets service = some vs →
      vs.Spec.Tls = []) ∧
    (∀ name subset0 subsets service,
      ∃ vs, generateDefaultVirtualServiceSpec sm name (subset0 :: subsets) service = some vs ∧
        vs.Spec.Tls = []) ∧
    (∀ (strategy : Strategy) (r : TLSRoute) (d : RouteDestination),
      r ∈ strategy.Spec.Template.Spec.Tls → d ∈ r.Route →
      d.Destination.Subset ∈ getSubsets strategy) ∧
    (∀ name subsets service strategies spec,
      desiredSpec sm name subsets service strategies = some spec →
      spec.Tls = [] ∧
        ((spec.Http ≠ [] ∨ spec.Tcp ≠ [] ∨ spec.Tls ≠ []) → (spec.Http ≠ [] ∨ spec.Tcp ≠ []))) := by
  refine ⟨generateVirtualServiceSpec_tls sm, generateDefaultVirtualServiceSpec_tls sm, ?_, ?_, ?_⟩
  · intro name subset0 subsets service
    unfold generateDefaultVirtualServiceSpec
    rw [defaultForPort_fold]
    exact ⟨_, rfl, rfl⟩
  · intro strategy r d hr hd
    exact (mem_getSubsets strategy _).mpr (Or.inr (Or.inr ⟨r, hr, d, hd, rfl⟩))
  · intro name subsets service strategies spec h
    have ht := desiredSpec_tls sm name subsets service strategies spec h
    refine ⟨ht, ?_⟩
    rintro (h1 | h1 | h1)
    · exact Or.inl h1
    · exact Or.inr h1
    · exact absurd ht h1

/-- C17 on a concrete input: the template `tlsTemplate` has a TLS route to `v3`, which
`getSubsets` collects, and the synthesized spec has no TLS route. -/
theorem synthesized_specs_have_no_tls_witness :
    tlsTemplate.Tls ≠ [] ∧
    "v3" ∈ getSubsets (sampleStrategy StrategyPolicy.PolicyImmediately "" tlsTemplate) ∧
    (generateVirtualServiceSpec sampleMesh
      (sampleStrategy StrategyPolicy.PolicyImmediately "" tlsTemplate)
      (sampleService samplePorts)).Spec.Tls = [] :=
  ⟨by decide,
    (synthesized_specs_have_no_tls sampleMesh).2.2.2.1
      (sampleStrategy StrategyPolicy.PolicyImmediately "" tlsTemplate)
      { Match := [{ SniHosts := ["reviews.example.com"], Port := 443 }]
        Route := [{ Destination := { Host := "reviews", Subset := "v3" }, Weight := 100 }] }
      { Destination := { Host := "reviews", Subset := "v3" }, Weight := 100 }
      (by decide) (by decide),
    (synthesized_specs_have_no_tls sampleMesh).1 _ _⟩

end VSController
